import Mathlib

/-!
Shallow embedding of the `sim-wasm` flocking simulation kernel
(`src/sim-wasm/src/{lib,math,neighbor_grid,flock2,model_classic,model_flock2}.rs`).

Modelling conventions:
* `f32` values are embedded as exact rationals (`ℚ`); float rounding is
  idealized to exact rational arithmetic.  Comparisons, clamps, and all
  piecewise control flow are taken verbatim from the source.
* `f32::sqrt` is embedded as `ratSqrt`, which is exact whenever the
  argument is the square of a rational (the only situations any theorem
  below reasons about) and a monotone integer-square-root approximation
  elsewhere; `exp`, `sin`, `cos`, `atan`, `asin` are embedded as truncated
  Taylor polynomials, exact at `0`.  `fast_inverse_sqrt` is embedded
  bit-exactly (IEEE-754 binary32 encode/decode of the bit trick) with the
  final Newton step in exact rational arithmetic.
* `u32` arithmetic (the hash noise, the LCG) is embedded exactly as
  naturals mod 2^32.
* Parallel `Vec<f32>` agent arrays are embedded as `List ℚ`, reads as
  `getD _ 0` and writes as `List.set` (loops are bounded by the lengths,
  so the total default never fires on the source's index ranges).
-/

namespace Flockround

set_option maxRecDepth 100000

/-- Source constant `EPSILON = 1.0e-6` (`lib.rs`, `math.rs`, `flock2.rs`). -/
def EPS : ℚ := 1 / 1000000

/-- Source constant `MIN_BOUND = 1.0e-6` / `MIN_CELL_SIZE = 1.0e-6`. -/
def MINB : ℚ := 1 / 1000000

/-- Source constant `WORLD_SIZE = 1.0`. -/
def WORLD : ℚ := 1

/-- Source constant `DEFAULT_Z_LAYER = 0.5`. -/
def ZLAYER : ℚ := 1 / 2

/-- Rust `f32::clamp(lo, hi)` for `lo ≤ hi` (every use in the source has
`lo ≤ hi`): `max lo (min v hi)`. -/
def rclamp (v lo hi : ℚ) : ℚ := max lo (min v hi)

/-- `clamp_finite(value, min, max, fallback)` from `lib.rs` / `flock2.rs`,
on the `Option ℚ` float model used for configuration sanitization:
`none` stands for a non-finite `f32` and takes the fallback branch. -/
def clampFiniteO (v : Option ℚ) (lo hi fb : ℚ) : ℚ :=
  match v with
  | none => fb
  | some q => rclamp q lo hi

/-- `clamp_finite` specialized to the dynamics state, where every value the
source feeds it is finite (the `ℚ` model has no non-finite values), so only
the clamping branch is reachable; the fallback argument is kept to mirror
the call sites. -/
def clampFiniteQ (v lo hi _fb : ℚ) : ℚ := rclamp v lo hi

theorem rclamp_le (v lo hi : ℚ) (h : lo ≤ hi) : rclamp v lo hi ≤ hi := by
  simp only [rclamp, max_le_iff]
  exact ⟨h, min_le_right _ _⟩

theorem le_rclamp (v lo hi : ℚ) : lo ≤ rclamp v lo hi := le_max_left _ _

theorem rclamp_of_le_of_le {v lo hi : ℚ} (h1 : lo ≤ v) (h2 : v ≤ hi) :
    rclamp v lo hi = v := by
  simp only [rclamp]
  rw [min_eq_left h2, max_eq_right h1]

theorem rclamp_idem (v lo hi : ℚ) (h : lo ≤ hi) :
    rclamp (rclamp v lo hi) lo hi = rclamp v lo hi :=
  rclamp_of_le_of_le (le_rclamp _ _ _) (rclamp_le _ _ _ h)

/-- Fuel-based digit-recursion integer square root (kernel-reducible, in
contrast to the well-founded `Nat.sqrt`); `isqrtAux_eq_sqrt` shows it
computes `Nat.sqrt` when given enough fuel. -/
def isqrtAux : ℕ → ℕ → ℕ
  | 0, _ => 0
  | fuel + 1, n =>
    if n < 2 then n
    else
      let s := 2 * isqrtAux fuel (n / 4)
      if (s + 1) * (s + 1) ≤ n then s + 1 else s

/-- Kernel-reducible integer square root. -/
def isqrt (n : ℕ) : ℕ := isqrtAux n n

theorem isqrtAux_eq_sqrt : ∀ fuel n, n ≤ fuel → isqrtAux fuel n = Nat.sqrt n := by
  intro fuel
  induction fuel with
  | zero =>
    intro n hn
    interval_cases n
    rfl
  | succ f ih =>
    intro n hn
    rw [isqrtAux]
    by_cases h2 : n < 2
    · interval_cases n <;> simp
    · push_neg at h2
      rw [if_neg (not_lt.mpr h2)]
      have hrec : n / 4 ≤ f := by omega
      rw [ih (n / 4) hrec]
      have hle : Nat.sqrt (n / 4) * Nat.sqrt (n / 4) ≤ n / 4 :=
        Nat.sqrt_le (n / 4)
      have hlt : n / 4 < (Nat.sqrt (n / 4) + 1) * (Nat.sqrt (n / 4) + 1) :=
        Nat.succ_mul_succ _ _ ▸ Nat.lt_succ_sqrt (n / 4)
      set t := Nat.sqrt (n / 4) with ht
      have h1 : 2 * t * (2 * t) ≤ n := by
        have e1 : 2 * t * (2 * t) = 4 * (t * t) := by ring
        rw [e1]
        omega
      have h2' : n < (2 * t + 2) * (2 * t + 2) := by
        have e2 : (2 * t + 2) * (2 * t + 2) = 4 * ((t + 1) * (t + 1)) := by
          ring
        rw [e2]
        omega
      by_cases hmid : (2 * t + 1) * (2 * t + 1) ≤ n
      · rw [if_pos hmid]
        have e3 : (2 * t + 1 + 1) * (2 * t + 1 + 1) = (2 * t + 2) * (2 * t + 2) := by
          ring
        exact Nat.eq_sqrt.mpr ⟨hmid, e3 ▸ h2'⟩
      · rw [if_neg hmid]
        exact Nat.eq_sqrt.mpr ⟨h1, by omega⟩

theorem isqrt_eq_sqrt (n : ℕ) : isqrt n = Nat.sqrt n :=
  isqrtAux_eq_sqrt n n le_rfl

/-- Embedding of `f32::sqrt`.  Exact on rational squares (by
`ratSqrt_mul_self`); an integer-square-root approximation elsewhere. -/
def ratSqrt (q : ℚ) : ℚ :=
  if q ≤ 0 then 0
  else
    let n : ℕ := q.num.toNat
    let d : ℕ := q.den
    if isqrt n * isqrt n = n ∧ isqrt d * isqrt d = d then
      (isqrt n : ℚ) / (isqrt d : ℚ)
    else
      (isqrt (n * d) : ℚ) / (d : ℚ)

theorem ratSqrt_mul_self {r : ℚ} (h : 0 ≤ r) : ratSqrt (r * r) = r := by
  rcases eq_or_lt_of_le h with h0 | hpos
  · subst h0
    simp [ratSqrt]
  · have hsq : ¬(r * r ≤ 0) := not_le.mpr (mul_pos hpos hpos)
    rw [ratSqrt, if_neg hsq]
    have hnum : (r * r).num = r.num * r.num := Rat.mul_self_num r
    have hden : (r * r).den = r.den * r.den := Rat.mul_self_den r
    have hnn : (0:ℤ) ≤ r.num := Rat.num_nonneg.mpr h
    obtain ⟨n, hn⟩ : ∃ n : ℕ, r.num = (n : ℤ) :=
      ⟨r.num.toNat, (Int.toNat_of_nonneg hnn).symm⟩
    have hnumnat : (r * r).num.toNat = n * n := by
      rw [hnum, hn]
      exact_mod_cast Int.toNat_natCast (n * n)
    have h1 : isqrt ((r * r).num.toNat) = n := by
      rw [hnumnat, isqrt_eq_sqrt, Nat.sqrt_eq]
    have h2 : isqrt ((r * r).den) = r.den := by
      rw [hden, isqrt_eq_sqrt, Nat.sqrt_eq]
    rw [if_pos ⟨by rw [h1, hnumnat], by rw [h2, hden]⟩, h1, h2]
    have : ((n : ℚ)) = (r.num : ℚ) := by rw [hn]; norm_cast
    rw [this]
    exact_mod_cast Rat.num_div_den r

/-! ### `math.rs`: precision modes and vector helpers -/

/-- `MathMode` from `math.rs`. -/
inductive MathMode where
  | accurate
  | fast
  deriving DecidableEq, Repr

/-- `MathMode::from_u32` (`math.rs`): `1 => Fast`, anything else `Accurate`. -/
def MathMode.fromU32 (value : ℕ) : MathMode :=
  if value = 1 then .fast else .accurate

/-- Largest `e` with `2^e ≤ n`, fuel-based (kernel-reducible, unlike the
well-founded `Nat.log`). -/
def natLog2F : ℕ → ℕ → ℕ
  | 0, _ => 0
  | fuel + 1, n => if n < 2 then 0 else natLog2F fuel (n / 2) + 1

/-- Smallest `e` with `n ≤ 2^e`, fuel-based. -/
def natClog2F : ℕ → ℕ → ℕ
  | 0, _ => 0
  | fuel + 1, n => if n ≤ 1 then 0 else natClog2F fuel ((n + 1) / 2) + 1

/-- `⌊log₂ q⌋` of a positive rational (the binary32 exponent): for `q ≥ 1`
the floor log of `⌊q⌋`, otherwise `-⌈log₂ q⁻¹⌉`. -/
def ratLog2 (q : ℚ) : ℤ :=
  if 1 ≤ q then ((natLog2F q.floor.toNat q.floor.toNat : ℕ) : ℤ)
  else -((natClog2F (1 / q).ceil.toNat (1 / q).ceil.toNat : ℕ) : ℤ)

/-- `2^e` on rationals for an integer exponent (kernel-friendly). -/
def qpow2 (e : ℤ) : ℚ :=
  if 0 ≤ e then ((2 ^ e.toNat : ℕ) : ℚ) else 1 / ((2 ^ (-e).toNat : ℕ) : ℚ)

/-- IEEE-754 binary32 encode (`f32::to_bits`), for the positive normal-range
values `fast_inverse_sqrt` feeds it; sign, subnormals and non-finite inputs
are outside that domain and map to junk. -/
def f32ToBits (q : ℚ) : ℕ :=
  if q ≤ 0 then 0
  else
    let e : ℤ := ratLog2 q
    let m : ℤ := (q * qpow2 (23 - e)).floor
    (e + 127).toNat % 256 * 2 ^ 23 + (m.toNat - 2 ^ 23)

/-- IEEE-754 binary32 decode (`f32::from_bits`) of a normal positive value. -/
def f32FromBits (b : ℕ) : ℚ :=
  let e : ℕ := b >>> 23 % 256
  let m : ℕ := b % 2 ^ 23
  ((2 ^ 23 + m : ℕ) : ℚ) / ((2 ^ 23 : ℕ) : ℚ) * qpow2 ((e : ℤ) - 127)

/-- `fast_inverse_sqrt` from `math.rs`: the binary32 bit trick
`0x5f3759df - (i >> 1)` followed by one Newton-Raphson step (the Newton
arithmetic idealized to exact rationals) and the final `max 0`. -/
def fastInverseSqrt (value : ℚ) : ℚ :=
  let half := (0.5 : ℚ) * value
  let i := 0x5f3759df - (f32ToBits value >>> 1)
  let y := f32FromBits i
  let y := y * ((1.5 : ℚ) - half * y * y)
  max y 0

/-- `inverse_sqrt` from `math.rs`. -/
def inverseSqrt (mode : MathMode) (value : ℚ) : ℚ :=
  match mode with
  | .accurate => 1 / ratSqrt value
  | .fast => fastInverseSqrt value

/-- `distance_sq_3d` from `math.rs`. -/
def distanceSq3d (dx dy dz : ℚ) : ℚ := dx * dx + dy * dy + dz * dz

/-- `normalize_to_magnitude` from `math.rs`. -/
def normalizeToMagnitude (mode : MathMode) (x y z magnitude : ℚ) :
    ℚ × ℚ × ℚ :=
  let magSq := distanceSq3d x y z
  if magSq ≤ EPS then (0, 0, 0)
  else
    let invMag := inverseSqrt mode magSq
    let scale := magnitude * invMag
    (x * scale, y * scale, z * scale)

/-- `limit_magnitude_3d` from `math.rs`. -/
def limitMagnitude3d (mode : MathMode) (x y z maxMagnitude : ℚ) :
    ℚ × ℚ × ℚ :=
  if maxMagnitude ≤ 0 then (0, 0, 0)
  else
    let magSq := distanceSq3d x y z
    let maxSq := maxMagnitude * maxMagnitude
    if magSq ≤ maxSq then (x, y, z)
    else
      let scale := maxMagnitude * inverseSqrt mode magSq
      (x * scale, y * scale, z * scale)

/-! ### Transcendental idealizations

The source calls `f32` `exp`, `sin`, `cos`, `atan2`, `asin` and `to_radians`.
They are embedded as truncated Taylor polynomials (exact at `0`, which is
the only point any proof below evaluates them at) and an exact rational
standing in for `π`. -/

/-- Truncated Taylor embedding of `f32::exp` (exact at `0`). -/
def ratExp (x : ℚ) : ℚ :=
  1 + x + x ^ 2 / 2 + x ^ 3 / 6 + x ^ 4 / 24 + x ^ 5 / 120

/-- Truncated Taylor embedding of `f32::sin` (exact at `0`). -/
def ratSin (x : ℚ) : ℚ :=
  x - x ^ 3 / 6 + x ^ 5 / 120 - x ^ 7 / 5040

/-- Truncated Taylor embedding of `f32::cos` (exact at `0`). -/
def ratCos (x : ℚ) : ℚ :=
  1 - x ^ 2 / 2 + x ^ 4 / 24 - x ^ 6 / 720

/-- Truncated Taylor embedding of `f32::atan` (exact at `0`). -/
def ratAtan (x : ℚ) : ℚ :=
  x - x ^ 3 / 3 + x ^ 5 / 5 - x ^ 7 / 7

/-- Rational stand-in for `π` (used only through `to_radians`). -/
def ratPi : ℚ := 3.14159265358979

/-- Embedding of `f32::atan2` with Rust's quadrant conventions
(`atan2(0, 0) = 0`, the case every proof below reaches). -/
def ratAtan2 (y x : ℚ) : ℚ :=
  if 0 < x then ratAtan (y / x)
  else if x < 0 then
    if 0 ≤ y then ratAtan (y / x) + ratPi else ratAtan (y / x) - ratPi
  else
    if 0 < y then ratPi / 2 else if y < 0 then -(ratPi / 2) else 0

/-- Truncated Taylor embedding of `f32::asin` (exact at `0`). -/
def ratAsin (x : ℚ) : ℚ :=
  x + x ^ 3 / 6 + 3 * x ^ 5 / 40

/-- `f32::to_radians`. -/
def toRadians (deg : ℚ) : ℚ := deg * ratPi / 180

/-! ### `u32` arithmetic and `hash_unit` (`lib.rs`) -/

/-- Truncation to 32 bits, the result of every wrapping `u32` operation. -/
def u32 (n : ℕ) : ℕ := n % 4294967296

/-- `hash_unit(step_index, particle_index, axis)` from `lib.rs`: the
multiply/xor-shift avalanche hash mapped to `[-1, 1]` (the two `as f32`
casts idealized as exact). -/
def hashUnit (stepIndex particleIndex axis : ℕ) : ℚ :=
  let x := u32 (u32 (stepIndex * 0x9E3779B9) + u32 (particleIndex * 0x85EBCA6B)
      + u32 (axis * 0xC2B2AE35) + 0x27D4EB2F)
  let x := x ^^^ (x >>> 15)
  let x := u32 (x * 0x85EBCA6B)
  let x := x ^^^ (x >>> 13)
  let x := u32 (x * 0xC2B2AE35)
  let x := x ^^^ (x >>> 16)
  let normalized : ℚ := (x : ℚ) / (4294967295 : ℚ)
  normalized * 2 - 1

/-! ### `flock2.rs` geometry helpers -/

/-- `dot3` from `flock2.rs`. -/
def dot3 (ax ay az bx by_ bz : ℚ) : ℚ := ax * bx + ay * by_ + az * bz

/-- `cross3` from `flock2.rs`. -/
def cross3 (ax ay az bx by_ bz : ℚ) : ℚ × ℚ × ℚ :=
  (ay * bz - az * by_, az * bx - ax * bz, ax * by_ - ay * bx)

/-- `normalize_or_default` from `flock2.rs`. -/
def normalizeOrDefault (x y z dx dy dz : ℚ) : ℚ × ℚ × ℚ :=
  let lenSq := x * x + y * y + z * z
  if lenSq ≤ EPS then (dx, dy, dz)
  else
    let invLen := 1 / ratSqrt lenSq
    (x * invLen, y * invLen, z * invLen)

/-- `heading_basis` from `flock2.rs`: forward / up / right orthonormal-ish
frame with the degeneracy-avoiding up reference. -/
def headingBasis (hx hy hz : ℚ) :
    (ℚ × ℚ × ℚ) × (ℚ × ℚ × ℚ) × (ℚ × ℚ × ℚ) :=
  let f := normalizeOrDefault hx hy hz 1 0 0
  let upRef : ℚ × ℚ × ℚ :=
    if |dot3 f.1 f.2.1 f.2.2 0 1 0| > 0.97 then (0, 0, 1) else (0, 1, 0)
  let crossR := cross3 upRef.1 upRef.2.1 upRef.2.2 f.1 f.2.1 f.2.2
  let right := normalizeOrDefault crossR.1 crossR.2.1 crossR.2.2 0 0 1
  let crossU := cross3 f.1 f.2.1 f.2.2 right.1 right.2.1 right.2.2
  let up := normalizeOrDefault crossU.1 crossU.2.1 crossU.2.2 0 1 0
  (f, up, right)

/-- `rotate_vector_around_axis` from `flock2.rs` (axis-angle rotation). -/
def rotateVectorAroundAxis (v axis : ℚ × ℚ × ℚ) (angle : ℚ) : ℚ × ℚ × ℚ :=
  let u := normalizeOrDefault axis.1 axis.2.1 axis.2.2 0 1 0
  let cosT := ratCos angle
  let sinT := ratSin angle
  let d := dot3 u.1 u.2.1 u.2.2 v.1 v.2.1 v.2.2
  let c := cross3 u.1 u.2.1 u.2.2 v.1 v.2.1 v.2.2
  (v.1 * cosT + c.1 * sinT + u.1 * d * (1 - cosT),
   v.2.1 * cosT + c.2.1 * sinT + u.2.1 * d * (1 - cosT),
   v.2.2 * cosT + c.2.2 * sinT + u.2.2 * d * (1 - cosT))

/-! ### `lib.rs` free functions: wrapped deltas, integration, steering -/

/-- `f32::rem_euclid` on rationals (`x.rem_euclid(w) = x - w * ⌊x / w⌋`). -/
def remEuclidQ (x w : ℚ) : ℚ := x - w * ((x / w).floor : ℚ)

/-- `shortest_wrapped_delta` from `lib.rs` (world size fixed at `1.0`). -/
def shortestWrappedDelta (delta : ℚ) : ℚ :=
  if delta > 0.5 then delta - 1
  else if delta < -0.5 then delta + 1
  else delta

/-- `axis_delta` from `lib.rs`. -/
def axisDelta (delta : ℚ) (wrap : Bool) : ℚ :=
  if wrap then shortestWrappedDelta delta else delta

/-- `project_axis_position` from `lib.rs`. -/
def projectAxisPosition (position : ℚ) (bounce : Bool) : ℚ :=
  if bounce then rclamp position 0 WORLD else remEuclidQ position WORLD

/-- The bounded reflection loop inside `integrate_axis` (`lib.rs`):
`for _ in 0..4 { if inside break; if p < 0 mirror&negate, continue;
if p > WORLD_SIZE mirror&negate }`. -/
def reflectLoop : ℕ → ℚ → ℚ → ℚ × ℚ
  | 0, p, v => (p, v)
  | n + 1, p, v =>
    if 0 ≤ p ∧ p ≤ WORLD then (p, v)
    else if p < 0 then reflectLoop n (-p) (-v)
    else reflectLoop n (WORLD * 2 - p) (-v)

/-- `integrate_axis` from `lib.rs`: wrap → `rem_euclid`, velocity unchanged;
bounce → tentative advance, at most 4 reflections, final clamp. -/
def integrateAxis (position velocity dt : ℚ) (bounce : Bool) : ℚ × ℚ :=
  if !bounce then (remEuclidQ (position + velocity * dt) WORLD, velocity)
  else
    let r := reflectLoop 4 (position + velocity * dt) velocity
    (rclamp r.1 0 WORLD, r.2)

/-- `steer_towards_3d` from `lib.rs`. -/
def steerTowards3d (mode : MathMode) (dx dy dz cvx cvy cvz maxSpeed : ℚ) :
    ℚ × ℚ × ℚ :=
  let t := normalizeToMagnitude mode dx dy dz maxSpeed
  (t.1 - cvx, t.2.1 - cvy, t.2.2 - cvz)

/-- Spec-side integration, C4's wording: on a wrapping axis the new position
is `(pos + v·dt) mod world_size` with velocity unchanged. -/
def specIntegrateWrap (position velocity dt : ℚ) : ℚ × ℚ :=
  (remEuclidQ (position + velocity * dt) WORLD, velocity)

/-- Spec-side mirror loop, C4's wording: at most 4 corrections, each either
`p < 0 ↦ -p` or `p > world ↦ 2·world - p`, negating velocity. -/
def specMirror : ℕ → ℚ → ℚ → ℚ × ℚ
  | 0, p, v => (p, v)
  | n + 1, p, v =>
    if p < 0 then specMirror n (-p) (-v)
    else if p > WORLD then specMirror n (2 * WORLD - p) (-v)
    else (p, v)

/-- Spec-side reflecting integration, C4's wording: tentatively advance,
mirror up to 4 times, finally clamp into `[0, world_size]`. -/
def specIntegrateReflect (position velocity dt : ℚ) : ℚ × ℚ :=
  let m := specMirror 4 (position + velocity * dt) velocity
  (rclamp m.1 0 WORLD, m.2)

/-! ### `neighbor_grid.rs`

The grid is rebuilt from current positions immediately before every use, so
it is embedded functionally: `queryVisits` returns the exact sequence of
candidate indices for which `scan_cell` invokes the callback.  The source's
`scan_cell` discards the callback's result (`F: FnMut(usize)`), so the
sequence does not depend on the callback; callers fold their closure over
it.  Buckets are singly-linked lists built by prepending agents `0..count`
in order, hence walked in descending index order. -/

/-- Effective cell size after `set_cell_size` (`cell_size.max(MIN_CELL_SIZE)`). -/
def effCell (cellSize : ℚ) : ℚ := max cellSize MINB

/-- Effective bound after `ensure_layout` (`width.max(MIN_BOUND)`). -/
def effBound (w : ℚ) : ℚ := max w MINB

/-- Grid column count from `ensure_layout`. -/
def gridCols (w cellSize : ℚ) : ℕ :=
  max 1 ((effBound w / effCell cellSize).ceil.toNat)

/-- `cell_x` / `cell_y` from `neighbor_grid.rs`: floor-divide then clamp to
`[0, cols-1]`. -/
def cellCoord (x cellSize : ℚ) (cols : ℕ) : ℤ :=
  max 0 (min (x / effCell cellSize).floor ((cols : ℤ) - 1))

/-- `wrap_cell_index` from `neighbor_grid.rs` (`rem_euclid`). -/
def wrapCellIndex (index : ℤ) (len : ℕ) : ℕ := (index.emod (len : ℤ)).toNat

/-- `wrapped_delta` from `neighbor_grid.rs`. -/
def wrappedDelta (delta worldExtent : ℚ) : ℚ :=
  let halfExtent := worldExtent * 0.5
  if delta > halfExtent then delta - worldExtent
  else if delta < -halfExtent then delta + worldExtent
  else delta

/-- Inclusive integer range `a..=b` as a list. -/
def intRangeIncl (a b : ℤ) : List ℤ :=
  (List.range (b - a + 1).toNat).map (fun k => a + (k : ℤ))

/-- The cell index an agent is inserted at (`cell_index_for_position`). -/
def cellIndexForPosition (xs ys : List ℚ) (k : ℕ) (cellSize w h : ℚ)
    (cols rows : ℕ) : ℕ :=
  (cellCoord (ys.getD k 0) cellSize rows).toNat * cols
    + (cellCoord (xs.getD k 0) cellSize cols).toNat

/-- The linked-list bucket of a cell after `rebuild`: agents of that cell in
descending index order (later inserts are prepended). -/
def bucket (xs ys : List ℚ) (count : ℕ) (cellSize w h : ℚ)
    (cols rows : ℕ) (cell : ℕ) : List ℕ :=
  (((List.range count).filter
    (fun k => cellIndexForPosition xs ys k cellSize w h cols rows = cell)).reverse)

/-- `scan_cell` from `neighbor_grid.rs`: walk the bucket, skip `i`, emit
every candidate whose (optionally wrapped) squared planar distance is within
`radius_sq`.  The callback's return value is discarded by the source, so the
emitted sequence is callback-independent. -/
def scanCell (xs ys : List ℚ) (count : ℕ) (cellSize w h : ℚ)
    (cols rows : ℕ) (cellX cellY : ℕ) (i : ℕ) (x y radiusSq : ℚ)
    (wrapX wrapY : Bool) : List ℕ :=
  (bucket xs ys count cellSize w h cols rows (cellY * cols + cellX)).filterMap
    (fun candidate =>
      if candidate = i then none
      else
        let rawDx := xs.getD candidate 0 - x
        let rawDy := ys.getD candidate 0 - y
        let dx := if wrapX then wrappedDelta rawDx (effBound w) else rawDx
        let dy := if wrapY then wrappedDelta rawDy (effBound h) else rawDy
        if dx * dx + dy * dy ≤ radiusSq then some candidate else none)

/-- `for_each_neighbor_with_wrap` from `neighbor_grid.rs`, as the sequence
of callback invocations (see the section comment). -/
def queryVisits (xs ys : List ℚ) (count : ℕ) (cellSize w h : ℚ)
    (i : ℕ) (radius : ℚ) (wrapX wrapY : Bool) : List ℕ :=
  if count ≤ i ∨ count = 0 then []
  else
    let cols := gridCols w cellSize
    let rows := gridCols h cellSize
    let radius' := max radius 0
    let radiusSq := radius' * radius'
    let cellRadius : ℤ := (radius' / effCell cellSize).ceil
    let x := xs.getD i 0
    let y := ys.getD i 0
    let baseCellX := cellCoord x cellSize cols
    let baseCellY := cellCoord y cellSize rows
    let minY := max (baseCellY - cellRadius) 0
    let maxY := min (baseCellY + cellRadius) ((rows : ℤ) - 1)
    let minX := max (baseCellX - cellRadius) 0
    let maxX := min (baseCellX + cellRadius) ((cols : ℤ) - 1)
    let scanRow := fun (cellY : ℕ) =>
      if wrapX then
        (intRangeIncl (-cellRadius) cellRadius).flatMap (fun xOff =>
          scanCell xs ys count cellSize w h cols rows
            (wrapCellIndex (baseCellX + xOff) cols) cellY i x y radiusSq
            wrapX wrapY)
      else
        (intRangeIncl minX maxX).flatMap (fun cX =>
          scanCell xs ys count cellSize w h cols rows cX.toNat cellY i x y
            radiusSq wrapX wrapY)
    if wrapY then
      (intRangeIncl (-cellRadius) cellRadius).flatMap (fun yOff =>
        scanRow (wrapCellIndex (baseCellY + yOff) rows))
    else
      (intRangeIncl minY maxY).flatMap (fun cY => scanRow cY.toNat)

/-! ### Configuration (`lib.rs` `SimConfig`, `flock2.rs` `Flock2Config`)

Two embeddings of each configuration:
* a plain-`ℚ` record used by the dynamics state (every value the dynamics
  holds is finite), and
* an `Option ℚ` record (`none` = non-finite `f32`) for the sanitization
  claims, carrying exactly the fields `sanitize` touches.
-/

/-- Plain classic configuration.  `shapeAttractorWeight` is referenced by
`model_classic.rs` but missing from the `SimConfig` in `lib.rs`; Modelled
from the spec: the classic model's shape-attractor weight (§4.3), with the
neutral default `0` ("skipped entirely if weight ≈ 0"). -/
structure SimCfg where
  sepWeight : ℚ
  alignWeight : ℚ
  cohWeight : ℚ
  neighborRadius : ℚ
  separationRadius : ℚ
  minSpeed : ℚ
  maxSpeed : ℚ
  maxForce : ℚ
  mathMode : MathMode
  maxNeighborsSampled : ℕ
  softMinDistance : ℚ
  hardMinDistance : ℚ
  jitterStrength : ℚ
  drag : ℚ
  shapeAttractorWeight : ℚ

/-- `SimConfig::default` from `lib.rs`. -/
def defaultSimCfg : SimCfg where
  sepWeight := 1.45
  alignWeight := 1.0
  cohWeight := 0.85
  neighborRadius := 0.08
  separationRadius := 0.035
  minSpeed := 0.045
  maxSpeed := 0.19
  maxForce := 0.42
  mathMode := .accurate
  maxNeighborsSampled := 0
  softMinDistance := 0.008
  hardMinDistance := 0.0
  jitterStrength := 0.01
  drag := 0.0
  shapeAttractorWeight := 0

/-- Plain flock2 configuration (`flock2.rs`). -/
structure Flock2Cfg where
  avoidWeight : ℚ
  alignWeight : ℚ
  cohesionWeight : ℚ
  boundaryWeight : ℚ
  boundaryCount : ℚ
  neighborRadius : ℚ
  topologicalNeighbors : ℕ
  fieldOfViewDeg : ℚ
  reactionTimeMs : ℚ
  dynamicStability : ℚ
  mass : ℚ
  wingArea : ℚ
  liftFactor : ℚ
  dragFactor : ℚ
  thrust : ℚ
  minSpeed : ℚ
  maxSpeed : ℚ
  gravity : ℚ
  airDensity : ℚ

/-- `Flock2Config::default` from `flock2.rs`. -/
def defaultFlock2Cfg : Flock2Cfg where
  avoidWeight := 0.02
  alignWeight := 0.60
  cohesionWeight := 0.004
  boundaryWeight := 0.10
  boundaryCount := 20.0
  neighborRadius := 0.10
  topologicalNeighbors := 7
  fieldOfViewDeg := 290.0
  reactionTimeMs := 250.0
  dynamicStability := 0.70
  mass := 0.08
  wingArea := 0.0224
  liftFactor := 0.5714
  dragFactor := 0.1731
  thrust := 0.2373
  minSpeed := 5.0
  maxSpeed := 18.0
  gravity := 9.8
  airDensity := 1.225

/-- `Flock2Config::sanitize` on the plain (finite) dynamics values: each
`clamp_finite` takes its clamping branch.  Field order and dependent bounds
follow `flock2.rs` lines 79-143. -/
def Flock2Cfg.sanitizeQ (c : Flock2Cfg) : Flock2Cfg :=
  let avoidWeight := rclamp c.avoidWeight 0 2
  let alignWeight := rclamp c.alignWeight 0 2
  let cohesionWeight := rclamp c.cohesionWeight 0 2
  let boundaryWeight := rclamp c.boundaryWeight 0 2
  let boundaryCount := rclamp c.boundaryCount 0 256
  let neighborRadius := rclamp c.neighborRadius 0.001 0.5
  let topologicalNeighbors := max 1 (min c.topologicalNeighbors 64)
  let fieldOfViewDeg := rclamp c.fieldOfViewDeg 30 360
  let reactionTimeMs := rclamp c.reactionTimeMs 25 2000
  let dynamicStability := rclamp c.dynamicStability 0 1
  let mass := rclamp c.mass 0.01 5
  let wingArea := rclamp c.wingArea 0.0005 1
  let liftFactor := rclamp c.liftFactor 0 2
  let dragFactor := rclamp c.dragFactor 0 2
  let thrust := rclamp c.thrust 0 20
  let minSpeed := rclamp c.minSpeed 0 200
  let maxSpeed := rclamp c.maxSpeed (max minSpeed 0.1) 250
  let gravity := rclamp c.gravity 0 30
  let airDensity := rclamp c.airDensity 0.1 3
  { avoidWeight, alignWeight, cohesionWeight, boundaryWeight, boundaryCount,
    neighborRadius, topologicalNeighbors, fieldOfViewDeg, reactionTimeMs,
    dynamicStability, mass, wingArea, liftFactor, dragFactor, thrust,
    minSpeed, maxSpeed, gravity, airDensity }

/-- `Flock2Config::fov_cos` from `flock2.rs`. -/
def Flock2Cfg.fovCos (c : Flock2Cfg) : ℚ :=
  ratCos (toRadians (c.fieldOfViewDeg * 0.5))

/-- Classic configuration on the `Option ℚ` float model, for the
sanitization claims (exactly the fields `SimConfig::sanitize` touches). -/
structure SimConfigF where
  sepWeight : Option ℚ
  alignWeight : Option ℚ
  cohWeight : Option ℚ
  neighborRadius : Option ℚ
  separationRadius : Option ℚ
  minSpeed : Option ℚ
  maxSpeed : Option ℚ
  maxForce : Option ℚ
  softMinDistance : Option ℚ
  hardMinDistance : Option ℚ
  jitterStrength : Option ℚ
  drag : Option ℚ

/-- `SimConfig::sanitize` from `lib.rs` (lines 103-157): field order and the
dependent bounds (`separation_radius ≤ neighbor_radius`,
`max_speed ≥ max(min_speed, MIN_NEIGHBOR_RADIUS)`) as in the source. -/
def SimConfigF.sanitize (c : SimConfigF) : SimConfigF :=
  let sepWeight := clampFiniteO c.sepWeight 0 10 1.45
  let alignWeight := clampFiniteO c.alignWeight 0 10 1.0
  let cohWeight := clampFiniteO c.cohWeight 0 10 0.85
  let neighborRadius := clampFiniteO c.neighborRadius 0.001 0.5 0.08
  let separationRadius := clampFiniteO c.separationRadius 0.0005 neighborRadius 0.035
  let minSpeed := clampFiniteO c.minSpeed 0 3 0.045
  let maxSpeed := clampFiniteO c.maxSpeed (max minSpeed 0.001) 3 0.19
  let maxForce := clampFiniteO c.maxForce 0 5 0.42
  let softMinDistance := clampFiniteO c.softMinDistance 0 1 0.008
  let hardMinDistance := clampFiniteO c.hardMinDistance 0 1 0.0
  let jitterStrength := clampFiniteO c.jitterStrength 0 1 0.01
  let drag := clampFiniteO c.drag 0 6 0.0
  { sepWeight := some sepWeight, alignWeight := some alignWeight,
    cohWeight := some cohWeight, neighborRadius := some neighborRadius,
    separationRadius := some separationRadius, minSpeed := some minSpeed,
    maxSpeed := some maxSpeed, maxForce := some maxForce,
    softMinDistance := some softMinDistance,
    hardMinDistance := some hardMinDistance,
    jitterStrength := some jitterStrength, drag := some drag }

/-- Flock2 configuration on the `Option ℚ` float model. -/
structure Flock2ConfigF where
  avoidWeight : Option ℚ
  alignWeight : Option ℚ
  cohesionWeight : Option ℚ
  boundaryWeight : Option ℚ
  boundaryCount : Option ℚ
  neighborRadius : Option ℚ
  topologicalNeighbors : ℕ
  fieldOfViewDeg : Option ℚ
  reactionTimeMs : Option ℚ
  dynamicStability : Option ℚ
  mass : Option ℚ
  wingArea : Option ℚ
  liftFactor : Option ℚ
  dragFactor : Option ℚ
  thrust : Option ℚ
  minSpeed : Option ℚ
  maxSpeed : Option ℚ
  gravity : Option ℚ
  airDensity : Option ℚ

/-- `Flock2Config::sanitize` from `flock2.rs` (lines 79-143) on the
`Option ℚ` float model. -/
def Flock2ConfigF.sanitize (c : Flock2ConfigF) : Flock2ConfigF :=
  let avoidWeight := clampFiniteO c.avoidWeight 0 2 0.02
  let alignWeight := clampFiniteO c.alignWeight 0 2 0.60
  let cohesionWeight := clampFiniteO c.cohesionWeight 0 2 0.004
  let boundaryWeight := clampFiniteO c.boundaryWeight 0 2 0.10
  let boundaryCount := clampFiniteO c.boundaryCount 0 256 20
  let neighborRadius := clampFiniteO c.neighborRadius 0.001 0.5 0.10
  let topologicalNeighbors := max 1 (min c.topologicalNeighbors 64)
  let fieldOfViewDeg := clampFiniteO c.fieldOfViewDeg 30 360 290
  let reactionTimeMs := clampFiniteO c.reactionTimeMs 25 2000 250
  let dynamicStability := clampFiniteO c.dynamicStability 0 1 0.70
  let mass := clampFiniteO c.mass 0.01 5 0.08
  let wingArea := clampFiniteO c.wingArea 0.0005 1 0.0224
  let liftFactor := clampFiniteO c.liftFactor 0 2 0.5714
  let dragFactor := clampFiniteO c.dragFactor 0 2 0.1731
  let thrust := clampFiniteO c.thrust 0 20 0.2373
  let minSpeed := clampFiniteO c.minSpeed 0 200 5
  let maxSpeed := clampFiniteO c.maxSpeed (max minSpeed 0.1) 250 18
  let gravity := clampFiniteO c.gravity 0 30 9.8
  let airDensity := clampFiniteO c.airDensity 0.1 3 1.225
  { avoidWeight := some avoidWeight, alignWeight := some alignWeight,
    cohesionWeight := some cohesionWeight,
    boundaryWeight := some boundaryWeight,
    boundaryCount := some boundaryCount,
    neighborRadius := some neighborRadius, topologicalNeighbors,
    fieldOfViewDeg := some fieldOfViewDeg,
    reactionTimeMs := some reactionTimeMs,
    dynamicStability := some dynamicStability, mass := some mass,
    wingArea := some wingArea, liftFactor := some liftFactor,
    dragFactor := some dragFactor, thrust := some thrust,
    minSpeed := some minSpeed, maxSpeed := some maxSpeed,
    gravity := some gravity, airDensity := some airDensity }

/-! ### Simulation state (`lib.rs` `Sim`) -/

/-- `ModelKind` (referenced by `model_flock2.rs`; its declaration sits in
the crate root alongside the dispatcher). -/
inductive ModelKind where
  | classic
  | flock2Social
  | flock2SocialFlight
  | flock2LiteSocial
  | flock2LiteSocialFlight
  deriving DecidableEq, Repr

/-- The `Sim` state.  The heading arrays, `flock2_config`, `model_kind` and
the shape-attractor point list are referenced by `model_classic.rs` /
`model_flock2.rs` (their declarations sit in the crate root next to the
fields `lib.rs` shows); they are carried here exactly as those files use
them. -/
structure SimState where
  count : ℕ
  activeCount : ℕ
  width : ℚ
  height : ℚ
  config : SimCfg
  flock2Config : Flock2Cfg
  modelKind : ModelKind
  bounceX : Bool
  bounceY : Bool
  bounceZ : Bool
  zModeEnabled : Bool
  zForceScale : ℚ
  posX : List ℚ
  posY : List ℚ
  posZ : List ℚ
  velX : List ℚ
  velY : List ℚ
  velZ : List ℚ
  accelX : List ℚ
  accelY : List ℚ
  accelZ : List ℚ
  headingX : List ℚ
  headingY : List ℚ
  headingZ : List ℚ
  renderXY : List ℚ
  renderZ : List ℚ
  shapePoints : List (ℚ × ℚ × ℚ)
  neighborsVisitedLastStep : ℕ
  stepIndex : ℕ

/-- Loop `for i in 0..n` threading a state. -/
def foldRange {α : Type} (n : ℕ) (f : α → ℕ → α) (init : α) : α :=
  (List.range n).foldl f init

/-- The rebuilt grid snapshot a phase queries: the cached positions
(`cached_x`/`cached_y` of the first `active_count` agents) and the cell
size set immediately before `rebuild`. -/
structure GridSnap where
  xs : List ℚ
  ys : List ℚ
  count : ℕ
  cellSize : ℚ

/-- `set_cell_size` + `rebuild(&pos[..active], WORLD_SIZE, WORLD_SIZE)`. -/
def rebuildGrid (s : SimState) (cellSize : ℚ) : GridSnap :=
  { xs := s.posX.take s.activeCount, ys := s.posY.take s.activeCount,
    count := s.activeCount, cellSize }

/-- Query on a rebuilt snapshot (world bounds are `WORLD_SIZE` as passed to
`rebuild`). -/
def GridSnap.visits (g : GridSnap) (i : ℕ) (radius : ℚ)
    (wrapX wrapY : Bool) : List ℕ :=
  queryVisits g.xs g.ys g.count g.cellSize WORLD WORLD i radius wrapX wrapY

/-- `sync_render_buffers` from `lib.rs`. -/
def syncRender (s : SimState) : SimState :=
  foldRange s.activeCount (fun st i =>
    { st with
      renderXY := ((st.renderXY.set (2 * i) (st.posX.getD i 0)).set
        (2 * i + 1) (st.posY.getD i 0)),
      renderZ := st.renderZ.set i (st.posZ.getD i 0) }) s

/-- `set_z_mode` from `lib.rs`. -/
def setZMode (s : SimState) (enabled : Bool) : SimState :=
  if !enabled then
    foldRange s.count (fun st i =>
      { st with
        posZ := st.posZ.set i ZLAYER,
        velZ := st.velZ.set i 0,
        accelZ := st.accelZ.set i 0,
        renderZ := st.renderZ.set i ZLAYER })
      { s with zModeEnabled := enabled }
  else
    foldRange s.count (fun st i =>
      { st with renderZ := st.renderZ.set i (st.posZ.getD i 0) })
      { s with zModeEnabled := enabled }

/-- `Lcg32::new` from `lib.rs`. -/
def lcgInit (seed : ℕ) : ℕ := if u32 seed = 0 then 0xA341316C else u32 seed

/-- `Lcg32::next_u32` from `lib.rs`. -/
def lcgNext (state : ℕ) : ℕ := u32 (state * 1664525 + 1013904223)

/-- `Lcg32::next_f32` from `lib.rs`: `(next_u32() >> 8) / 2^24` (exact). -/
def lcgF32 (state : ℕ) : ℚ × ℕ :=
  let next := lcgNext state
  (((next >>> 8 : ℕ) : ℚ) / 16777216, next)

/-- One agent's six sequential draws in the `Sim::new` loop. -/
structure AgentInit where
  px : ℚ
  py : ℚ
  pz : ℚ
  vx : ℚ
  vy : ℚ
  vz : ℚ

/-- Loop body of `Sim::new` (`lib.rs` lines 205-220). -/
def initAgent (cfg : SimCfg) (st : ℕ) : AgentInit × ℕ :=
  let r1 := lcgF32 st
  let r2 := lcgF32 r1.2
  let r3 := lcgF32 r2.2
  let r4 := lcgF32 r3.2
  let r5 := lcgF32 r4.2
  let r6 := lcgF32 r5.2
  let angle := r4.1 * (ratPi * 2)
  let speed := cfg.minSpeed + (cfg.maxSpeed - cfg.minSpeed) * r5.1
  ({ px := r1.1, py := r2.1, pz := r3.1,
     vx := ratCos angle * speed, vy := ratSin angle * speed,
     vz := (r6.1 * 2 - 1) * speed * 0.35 }, r6.2)

/-- All agents' draws, threading the LCG state. -/
def initAgents (cfg : SimCfg) : ℕ → ℕ → List AgentInit
  | 0, _ => []
  | n + 1, st =>
    let a := initAgent cfg st
    a.1 :: initAgents cfg n a.2

/-- `Sim::new` from `lib.rs` (lines 190-248): random placement from the
seeded LCG; `z_mode_enabled` starts `false`; `render_z` starts at the
mid-layer while `pos_z` keeps the raw third draw. -/
def simNew (count seed : ℕ) (width height : ℚ) : SimState :=
  let cfg := defaultSimCfg
  let agents := initAgents cfg count (lcgInit seed)
  { count, activeCount := count,
    width := max width MINB, height := max height MINB,
    config := cfg, flock2Config := defaultFlock2Cfg, modelKind := .classic,
    bounceX := false, bounceY := false, bounceZ := false,
    zModeEnabled := false, zForceScale := 0.75,
    posX := agents.map (·.px), posY := agents.map (·.py),
    posZ := agents.map (·.pz),
    velX := agents.map (·.vx), velY := agents.map (·.vy),
    velZ := agents.map (·.vz),
    accelX := List.replicate count 0, accelY := List.replicate count 0,
    accelZ := List.replicate count 0,
    headingX := List.replicate count 1, headingY := List.replicate count 0,
    headingZ := List.replicate count 0,
    renderXY := (agents.flatMap (fun a => [a.px, a.py])),
    renderZ := List.replicate count ZLAYER,
    shapePoints := [(0.5, 0.5, 0.5)],
    neighborsVisitedLastStep := 0, stepIndex := 0 }

/-- Modelled from the spec: `shape_attractor_force` (missing from the
`lib.rs` under `src/`; called by `model_classic.rs` / `model_flock2.rs`).
Spec §4.3: "direction toward the nearest shape-attractor point
(wrapped-aware nearest-point search across all configured points), scaled
by the attractor weight; skipped entirely if weight ≈ 0 or no usable
points". -/
def shapeAttractorForce (s : SimState) (i : ℕ) : ℚ × ℚ × ℚ :=
  let weight := s.config.shapeAttractorWeight
  match s.shapePoints with
  | [] => (0, 0, 0)
  | p :: rest =>
    if weight ≤ EPS then (0, 0, 0)
    else
      let wrapX := !s.bounceX
      let wrapY := !s.bounceY
      let wrapZ := !s.bounceZ
      let px := s.posX.getD i 0
      let py := s.posY.getD i 0
      let pz := s.posZ.getD i 0
      let deltaTo := fun (q : ℚ × ℚ × ℚ) =>
        (axisDelta (q.1 - px) wrapX, axisDelta (q.2.1 - py) wrapY,
         if s.zModeEnabled then axisDelta (q.2.2 - pz) wrapZ else 0)
      let best := rest.foldl (fun acc q =>
        let d := deltaTo q
        let dsq := distanceSq3d d.1 d.2.1 d.2.2
        if dsq < acc.1 then (dsq, d) else acc)
        (let d0 := deltaTo p; (distanceSq3d d0.1 d0.2.1 d0.2.2, d0))
      let dir := normalizeOrDefault best.2.1 best.2.2.1 best.2.2.2 0 0 0
      (dir.1 * weight, dir.2.1 * weight, dir.2.2 * weight)

/-! ### Hard-constraint resolver (`lib.rs` `resolve_hard_min_distance_constraints`) -/

/-- The push direction and distance of a correcting pair: the normalized
separation vector, or for a (near-)coincident pair the hash-based
pseudo-random direction with the `(1,0,0)` fallback (lines 653-676). -/
structure PushDir where
  nx : ℚ
  ny : ℚ
  nz : ℚ
  dist : ℚ

/-- Direction/distance computation for one pair (`lib.rs` lines 653-676). -/
def pairPushDir (s : SimState) (i j : ℕ) (dx dy dz distSq : ℚ) : PushDir :=
  if distSq > EPS then
    let dist := ratSqrt distSq
    { nx := dx / dist, ny := dy / dist,
      nz := if s.zModeEnabled then dz / dist else 0, dist }
  else
    let nx := hashUnit s.stepIndex i 0
    let ny := hashUnit s.stepIndex j 1
    let nz := if s.zModeEnabled then hashUnit s.stepIndex (i ^^^ j) 2 else 0
    let lenSq := nx * nx + ny * ny + nz * nz
    if lenSq > EPS then
      let invLen := 1 / ratSqrt lenSq
      { nx := nx * invLen, ny := ny * invLen, nz := nz * invLen, dist := 0 }
    else
      { nx := 1, ny := 0, nz := 0, dist := 0 }

/-- Body of the `for &j in &neighbors` loop (`lib.rs` lines 640-693):
skip pairs at or beyond the hard distance, compute the push, apply it to
both agents' positions with per-axis boundary re-projection. -/
def applyPairCorrection (s : SimState) (hard : ℚ) (i j : ℕ) : SimState :=
  let wrapX := !s.bounceX
  let wrapY := !s.bounceY
  let wrapZ := !s.bounceZ
  let minDistanceSq := hard * hard
  let dx := axisDelta (s.posX.getD j 0 - s.posX.getD i 0) wrapX
  let dy := axisDelta (s.posY.getD j 0 - s.posY.getD i 0) wrapY
  let dz := if s.zModeEnabled then
      axisDelta (s.posZ.getD j 0 - s.posZ.getD i 0) wrapZ
    else 0
  let distSq := distanceSq3d dx dy dz
  if distSq ≥ minDistanceSq then s
  else
    let pd := pairPushDir s i j dx dy dz distSq
    let push := min ((hard - pd.dist) * 0.5 * 0.05) 0.0025
    if push ≤ 0 then s
    else
      let s := { s with
        posX := s.posX.set i
          (projectAxisPosition (s.posX.getD i 0 - pd.nx * push) s.bounceX),
        posY := s.posY.set i
          (projectAxisPosition (s.posY.getD i 0 - pd.ny * push) s.bounceY) }
      let s := { s with
        posX := s.posX.set j
          (projectAxisPosition (s.posX.getD j 0 + pd.nx * push) s.bounceX),
        posY := s.posY.set j
          (projectAxisPosition (s.posY.getD j 0 + pd.ny * push) s.bounceY) }
      if s.zModeEnabled then
        { s with posZ := ((s.posZ.set i
            (projectAxisPosition (s.posZ.getD i 0 - pd.nz * push) s.bounceZ)).set
          j (projectAxisPosition (s.posZ.getD j 0 + pd.nz * push) s.bounceZ)) }
      else s

/-- The dedup collection of one agent's query (`lib.rs` lines 624-638): keep
`j > i`, first occurrence only. -/
def collectResolveNeighbors (i : ℕ) (visits : List ℕ) : List ℕ :=
  visits.foldl
    (fun acc j => if i < j ∧ acc.contains j = false then acc ++ [j] else acc) []

/-- `resolve_hard_min_distance_constraints` from `lib.rs` (lines 604-695).
The grid is rebuilt once at cell size `hard_min_distance` from the
positions at entry (the grid caches positions, so the queries see the
pre-loop snapshot while the distance re-checks see live positions). -/
def resolveHard (s : SimState) : SimState :=
  let hard := s.config.hardMinDistance
  if hard ≤ EPS ∨ s.activeCount < 2 then s
  else
    let wrapX := !s.bounceX
    let wrapY := !s.bounceY
    let grid := rebuildGrid s hard
    foldRange s.activeCount (fun st i =>
      (collectResolveNeighbors i (grid.visits i hard wrapX wrapY)).foldl
        (fun st2 j => applyPairCorrection st2 hard i j) st) s

/-! ### Classic model (`model_classic.rs`) -/

/-- Accumulator of the neighbor closure in `compute_boids_acceleration`. -/
structure BoidsAcc where
  sepX : ℚ
  sepY : ℚ
  sepZ : ℚ
  sepCount : ℕ
  alignX : ℚ
  alignY : ℚ
  alignZ : ℚ
  cohX : ℚ
  cohY : ℚ
  cohZ : ℚ
  neighborCount : ℕ
  neighborSamples : ℕ

/-- `compute_boids_acceleration` from `model_classic.rs` (lines 147-323).
The per-candidate closure is folded over the grid's full invocation
sequence (the grid as written discards the closure's continue/stop result);
the closure's own `sample_cap` guard still re-fires on every invocation.
Returns `(fx, fy, fz, neighbor_count)`. -/
def computeBoidsAcceleration (grid : GridSnap) (s : SimState) (i : ℕ) :
    ℚ × ℚ × ℚ × ℕ :=
  let wrapX := !s.bounceX
  let wrapY := !s.bounceY
  let wrapZ := !s.bounceZ
  let px := s.posX.getD i 0
  let py := s.posY.getD i 0
  let pz := s.posZ.getD i 0
  let vx := s.velX.getD i 0
  let vy := s.velY.getD i 0
  let vz := s.velZ.getD i 0
  let neighborRadiusSq := s.config.neighborRadius * s.config.neighborRadius
  let separationRadiusSq := s.config.separationRadius * s.config.separationRadius
  let minDistanceSq := s.config.softMinDistance * s.config.softMinDistance
  let sampleCap := s.config.maxNeighborsSampled
  let acc := (grid.visits i s.config.neighborRadius wrapX wrapY).foldl
    (fun (a : BoidsAcc) j =>
      if sampleCap > 0 ∧ sampleCap ≤ a.neighborSamples then a
      else
        let a := { a with neighborSamples := a.neighborSamples + 1 }
        let dx := axisDelta (s.posX.getD j 0 - px) wrapX
        let dy := axisDelta (s.posY.getD j 0 - py) wrapY
        let dz := if s.zModeEnabled then
            axisDelta (s.posZ.getD j 0 - pz) wrapZ
          else 0
        let distSq := distanceSq3d dx dy dz
        if distSq ≤ EPS ∨ distSq > neighborRadiusSq then a
        else
          let a := { a with
            neighborCount := a.neighborCount + 1,
            alignX := a.alignX + s.velX.getD j 0,
            alignY := a.alignY + s.velY.getD j 0,
            alignZ := a.alignZ + (if s.zModeEnabled then s.velZ.getD j 0 else 0),
            cohX := a.cohX + dx, cohY := a.cohY + dy, cohZ := a.cohZ + dz }
          if distSq ≤ separationRadiusSq then
            let invDistSq := 1 / max distSq EPS
            let a := { a with
              sepX := a.sepX - dx * invDistSq,
              sepY := a.sepY - dy * invDistSq,
              sepZ := a.sepZ - dz * invDistSq }
            let a :=
              if minDistanceSq > EPS ∧ distSq < minDistanceSq then
                let hardPushMag :=
                  s.config.softMinDistance * (1 - distSq / minDistanceSq)
                let h := normalizeToMagnitude s.config.mathMode (-dx) (-dy)
                  (if s.zModeEnabled then -dz else 0) hardPushMag
                { a with
                  sepX := a.sepX + h.1
                  sepY := a.sepY + h.2.1
                  sepZ := a.sepZ + h.2.2 }
              else a
            { a with sepCount := a.sepCount + 1 }
          else a)
    { sepX := 0, sepY := 0, sepZ := 0, sepCount := 0,
      alignX := 0, alignY := 0, alignZ := 0,
      cohX := 0, cohY := 0, cohZ := 0,
      neighborCount := 0, neighborSamples := 0 }
  let force : ℚ × ℚ × ℚ :=
    if acc.sepCount > 0 then
      let n : ℚ := acc.sepCount
      let st := steerTowards3d s.config.mathMode (acc.sepX / n) (acc.sepY / n)
        (acc.sepZ / n) vx vy (if s.zModeEnabled then vz else 0)
        s.config.maxSpeed
      (st.1 * s.config.sepWeight, st.2.1 * s.config.sepWeight,
       st.2.2 * s.config.sepWeight * s.zForceScale)
    else (0, 0, 0)
  let force : ℚ × ℚ × ℚ :=
    if acc.neighborCount > 0 then
      let n : ℚ := acc.neighborCount
      let al := steerTowards3d s.config.mathMode (acc.alignX / n)
        (acc.alignY / n) (acc.alignZ / n) vx vy
        (if s.zModeEnabled then vz else 0) s.config.maxSpeed
      let co := steerTowards3d s.config.mathMode (acc.cohX / n) (acc.cohY / n)
        (acc.cohZ / n) vx vy (if s.zModeEnabled then vz else 0)
        s.config.maxSpeed
      (force.1 + al.1 * s.config.alignWeight + co.1 * s.config.cohWeight,
       force.2.1 + al.2.1 * s.config.alignWeight + co.2.1 * s.config.cohWeight,
       force.2.2 + al.2.2 * s.config.alignWeight * s.zForceScale
         + co.2.2 * s.config.cohWeight * s.zForceScale)
    else force
  let force : ℚ × ℚ × ℚ :=
    if !s.zModeEnabled then (force.1, force.2.1, 0) else force
  let force : ℚ × ℚ × ℚ :=
    if s.config.jitterStrength > 0 then
      (force.1 + hashUnit s.stepIndex i 0 * s.config.jitterStrength,
       force.2.1 + hashUnit s.stepIndex i 1 * s.config.jitterStrength,
       if s.zModeEnabled then
         force.2.2 + hashUnit s.stepIndex i 2 * s.config.jitterStrength
       else force.2.2)
    else force
  let sh := shapeAttractorForce s i
  let force : ℚ × ℚ × ℚ :=
    (force.1 + sh.1, force.2.1 + sh.2.1, force.2.2 + sh.2.2 * s.zForceScale)
  let f := limitMagnitude3d s.config.mathMode force.1 force.2.1 force.2.2
    s.config.maxForce
  (f.1, f.2.1, f.2.2, acc.neighborCount)

/-- The steering-disabled fast path of `step_classic` (`model_classic.rs`
lines 24-48): drag and position integration only. -/
def classicFastPath (s : SimState) (dragDamping dt : ℚ) : SimState :=
  foldRange s.activeCount (fun st i =>
    let vx := st.velX.getD i 0 * dragDamping
    let vy := st.velY.getD i 0 * dragDamping
    let vz := if st.zModeEnabled then st.velZ.getD i 0 * dragDamping else 0
    let rx := integrateAxis (st.posX.getD i 0) vx dt st.bounceX
    let ry := integrateAxis (st.posY.getD i 0) vy dt st.bounceY
    let rz := if st.zModeEnabled then
        integrateAxis (st.posZ.getD i 0) vz dt st.bounceZ
      else (ZLAYER, 0)
    { st with
      velX := st.velX.set i rx.2, velY := st.velY.set i ry.2,
      velZ := st.velZ.set i (if st.zModeEnabled then rz.2 else 0),
      posX := st.posX.set i rx.1, posY := st.posY.set i ry.1,
      posZ := st.posZ.set i rz.1 }) s

/-- Velocity/position integration of one agent in the main classic path
(`model_classic.rs` lines 73-140). -/
def classicIntegrateAgent (st : SimState) (dragDamping dt : ℚ) (i : ℕ) :
    SimState :=
  let vx := (st.velX.getD i 0 + st.accelX.getD i 0 * dt) * dragDamping
  let vy := (st.velY.getD i 0 + st.accelY.getD i 0 * dt) * dragDamping
  let vz := if st.zModeEnabled then
      (st.velZ.getD i 0 + st.accelZ.getD i 0 * dt) * dragDamping
    else 0
  let speedSq := if st.zModeEnabled then vx * vx + vy * vy + vz * vz
    else vx * vx + vy * vy
  let v : ℚ × ℚ × ℚ :=
    if speedSq ≤ EPS then
      if st.config.minSpeed > 0 then (st.config.minSpeed, 0, 0)
      else (vx, vy, vz)
    else
      let minSpeedSq := st.config.minSpeed * st.config.minSpeed
      let maxSpeedSq := st.config.maxSpeed * st.config.maxSpeed
      if speedSq < minSpeedSq then
        let nv := normalizeToMagnitude st.config.mathMode vx vy
          (if st.zModeEnabled then vz else 0) st.config.minSpeed
        (nv.1, nv.2.1, if st.zModeEnabled then nv.2.2 else vz)
      else if speedSq > maxSpeedSq then
        let nv := normalizeToMagnitude st.config.mathMode vx vy
          (if st.zModeEnabled then vz else 0) st.config.maxSpeed
        (nv.1, nv.2.1, if st.zModeEnabled then nv.2.2 else vz)
      else (vx, vy, vz)
  let rx := integrateAxis (st.posX.getD i 0) v.1 dt st.bounceX
  let ry := integrateAxis (st.posY.getD i 0) v.2.1 dt st.bounceY
  let rz := if st.zModeEnabled then
      integrateAxis (st.posZ.getD i 0) v.2.2 dt st.bounceZ
    else (ZLAYER, 0)
  { st with
    velX := st.velX.set i rx.2, velY := st.velY.set i ry.2,
    velZ := st.velZ.set i (if st.zModeEnabled then rz.2 else 0),
    posX := st.posX.set i rx.1, posY := st.posY.set i ry.1,
    posZ := st.posZ.set i rz.1 }

/-- The main classic path (`model_classic.rs` lines 56-140): grid rebuild
at the neighbor radius, acceleration pass, then integration pass. -/
def classicMainPath (s : SimState) (dragDamping dt : ℚ) : SimState :=
  let grid := rebuildGrid s s.config.neighborRadius
  let s := foldRange s.activeCount (fun st i =>
    let r := computeBoidsAcceleration grid st i
    { st with
      accelX := st.accelX.set i r.1,
      accelY := st.accelY.set i r.2.1,
      accelZ := st.accelZ.set i r.2.2.1,
      neighborsVisitedLastStep := st.neighborsVisitedLastStep + r.2.2.2 }) s
  foldRange s.activeCount (fun st i => classicIntegrateAgent st dragDamping dt i) s

/-- `step_classic` from `model_classic.rs` (lines 7-145): bump the step
index, reset the diagnostic counter, take the fast path when steering is
disabled, and in both branches finish with the hard-constraint resolver
followed by the render mirror. -/
def stepClassic (s : SimState) (dt : ℚ) : SimState :=
  let s := { s with
    stepIndex := u32 (s.stepIndex + 1)
    neighborsVisitedLastStep := 0 }
  let steeringDisabled := s.config.maxForce ≤ EPS ∨
    ((s.config.sepWeight ≤ EPS ∧ s.config.alignWeight ≤ EPS ∧
      s.config.cohWeight ≤ EPS) ∧ s.config.jitterStrength ≤ EPS ∧
      s.config.shapeAttractorWeight ≤ EPS)
  let dragDamping := if s.config.drag ≤ EPS then 1
    else ratExp (-(s.config.drag * dt))
  if steeringDisabled then
    syncRender (resolveHard (classicFastPath s dragDamping dt))
  else
    syncRender (resolveHard (classicMainPath s dragDamping dt))

/-! ### Model switch reseed (`model_flock2.rs` `reseed_velocity_for_model`) -/

/-- `reseed_velocity_for_model` from `model_flock2.rs` (lines 11-121):
rescales velocities by the world-scale constant into the target model's
unit convention, renormalizes speed into the target band, and re-derives
headings; positions are not touched. -/
def reseedVelocityForModel (s : SimState) : SimState :=
  match s.modelKind with
  | .classic =>
    foldRange s.count (fun st i =>
      let vx0 := st.velX.getD i 0 * 0.02
      let vy0 := st.velY.getD i 0 * 0.02
      let vz0 := if st.zModeEnabled then st.velZ.getD i 0 * 0.02 else 0
      let speedSq := vx0 * vx0 + vy0 * vy0 +
        (if st.zModeEnabled then vz0 * vz0 else 0)
      let v : ℚ × ℚ × ℚ :=
        if speedSq ≤ EPS then
          (st.headingX.getD i 0 * st.config.minSpeed,
           st.headingY.getD i 0 * st.config.minSpeed,
           if st.zModeEnabled then st.headingZ.getD i 0 * st.config.minSpeed
           else 0)
        else (vx0, vy0, vz0)
      let nv := normalizeToMagnitude st.config.mathMode v.1 v.2.1
        (if st.zModeEnabled then v.2.2 else 0)
        (clampFiniteQ (ratSqrt (max speedSq EPS)) st.config.minSpeed
          st.config.maxSpeed (max st.config.minSpeed 0.01))
      let st := { st with
        velX := st.velX.set i nv.1, velY := st.velY.set i nv.2.1,
        velZ := st.velZ.set i (if st.zModeEnabled then nv.2.2 else 0) }
      let h := normalizeOrDefault (st.velX.getD i 0) (st.velY.getD i 0)
        (st.velZ.getD i 0) 1 0 0
      { st with
        headingX := st.headingX.set i h.1,
        headingY := st.headingY.set i h.2.1,
        headingZ := st.headingZ.set i
          (if st.zModeEnabled then h.2.2 else 0) }) s
  | _ =>
    let s := { s with flock2Config := s.flock2Config.sanitizeQ }
    foldRange s.count (fun st i =>
      let vx0 := st.velX.getD i 0 / 0.02
      let vy0 := st.velY.getD i 0 / 0.02
      let vz0 := if st.zModeEnabled then st.velZ.getD i 0 / 0.02 else 0
      let speedSq := vx0 * vx0 + vy0 * vy0 +
        (if st.zModeEnabled then vz0 * vz0 else 0)
      let v : ℚ × ℚ × ℚ :=
        if speedSq ≤ EPS then
          (st.headingX.getD i 0 * st.flock2Config.minSpeed,
           st.headingY.getD i 0 * st.flock2Config.minSpeed,
           if st.zModeEnabled then
             st.headingZ.getD i 0 * st.flock2Config.minSpeed
           else 0)
        else (vx0, vy0, vz0)
      let speed := clampFiniteQ (ratSqrt speedSq) st.flock2Config.minSpeed
        st.flock2Config.maxSpeed st.flock2Config.minSpeed
      let nv := normalizeToMagnitude st.config.mathMode v.1 v.2.1
        (if st.zModeEnabled then v.2.2 else 0) speed
      let st := { st with
        velX := st.velX.set i nv.1, velY := st.velY.set i nv.2.1,
        velZ := st.velZ.set i (if st.zModeEnabled then nv.2.2 else 0) }
      let h := normalizeOrDefault (st.velX.getD i 0) (st.velY.getD i 0)
        (st.velZ.getD i 0) 1 0 0
      { st with
        headingX := st.headingX.set i h.1,
        headingY := st.headingY.set i h.2.1,
        headingZ := st.headingZ.set i
          (if st.zModeEnabled then h.2.2 else 0) }) s

/-! ### Flock2 models (`model_flock2.rs`) -/

/-- Sorted insertion of `(dist_sq, j)` capped at `cap`, the list form of the
source's `topological_dsq`/`topological_indices` insertion (lines 605-622):
`insert_at` is found by scanning right-to-left while `dist_sq` is strictly
smaller, i.e. the new entry lands after every entry `≤ dist_sq`; the shift
loop then moves the tail right inside the cap, which on a sorted list of
length `≤ cap` is exactly insert-then-truncate. -/
def topoInsert (l : List (ℚ × ℕ)) (cap : ℕ) (d : ℚ) (j : ℕ) :
    List (ℚ × ℕ) :=
  let rec ins : List (ℚ × ℕ) → List (ℚ × ℕ)
    | [] => [(d, j)]
    | x :: xs => if d < x.1 then (d, j) :: x :: xs else x :: ins xs
  (ins l).take cap

/-- Accumulator of the `compute_flock2_heading` neighbor closure.
`nearest = none` models the `usize::MAX` / `f32::MAX` sentinel pair. -/
structure Flock2Acc where
  nearest : Option (ℕ × ℚ)
  topo : List (ℚ × ℕ)
  visibleNeighbors : ℕ
  candidatesVisited : ℕ

/-- `compute_flock2_heading` from `model_flock2.rs` (lines 526-750): FOV
filtering, nearest-visible tracking, k-nearest insertion, yaw/pitch
steering, boundary centroid pull, reaction-gain-scaled axis-angle rotation.
Returns `(hx, hy, hz, candidates_visited)`. -/
def computeFlock2Heading (grid : GridSnap) (s : SimState) (i : ℕ) (dt : ℚ)
    (centroidX centroidY centroidZ : ℚ) : ℚ × ℚ × ℚ × ℕ :=
  let wrapX := !s.bounceX
  let wrapY := !s.bounceY
  let wrapZ := !s.bounceZ
  let px := s.posX.getD i 0
  let py := s.posY.getD i 0
  let pz := s.posZ.getD i 0
  let fwd := normalizeOrDefault (s.headingX.getD i 0) (s.headingY.getD i 0)
    (if s.zModeEnabled then s.headingZ.getD i 0 else 0) 1 0 0
  let basis := headingBasis fwd.1 fwd.2.1 fwd.2.2
  let up := basis.2.1
  let right := basis.2.2
  let topologicalCap := s.flock2Config.topologicalNeighbors
  let fovCos := s.flock2Config.fovCos
  let searchRadiusSq := s.flock2Config.neighborRadius * s.flock2Config.neighborRadius
  let acc := (grid.visits i s.flock2Config.neighborRadius wrapX wrapY).foldl
    (fun (a : Flock2Acc) j =>
      let dx := axisDelta (s.posX.getD j 0 - px) wrapX
      let dy := axisDelta (s.posY.getD j 0 - py) wrapY
      let dz := if s.zModeEnabled then axisDelta (s.posZ.getD j 0 - pz) wrapZ
        else 0
      let distSq := distanceSq3d dx dy dz
      if distSq ≤ EPS ∨ distSq > searchRadiusSq then a
      else
        let invDist := 1 / ratSqrt distSq
        let dirX := dx * invDist
        let dirY := dy * invDist
        let dirZ := if s.zModeEnabled then dz * invDist else 0
        let forwardDot := dot3 fwd.1 fwd.2.1 fwd.2.2 dirX dirY dirZ
        if forwardDot < fovCos then a
        else
          let nearest := match a.nearest with
            | none => some (j, distSq)
            | some (n, nd) => if distSq < nd then some (j, distSq)
              else some (n, nd)
          { nearest
            topo := topoInsert a.topo topologicalCap distSq j
            visibleNeighbors := a.visibleNeighbors + 1
            candidatesVisited := a.candidatesVisited + 1 })
    { nearest := none, topo := [], visibleNeighbors := 0,
      candidatesVisited := 0 }
  let yawPitch : ℚ × ℚ :=
    match acc.nearest with
    | none => (0, 0)
    | some (n, _) =>
      let dx := axisDelta (s.posX.getD n 0 - px) wrapX
      let dy := axisDelta (s.posY.getD n 0 - py) wrapY
      let dz := if s.zModeEnabled then axisDelta (s.posZ.getD n 0 - pz) wrapZ
        else 0
      let dir := normalizeOrDefault (-dx) (-dy) (-dz) 0 0 0
      let localX := dot3 dir.1 dir.2.1 dir.2.2 fwd.1 fwd.2.1 fwd.2.2
      let localY := rclamp (dot3 dir.1 dir.2.1 dir.2.2 up.1 up.2.1 up.2.2) (-1) 1
      let localZ := dot3 dir.1 dir.2.1 dir.2.2 right.1 right.2.1 right.2.2
      (ratAtan2 localZ localX * s.flock2Config.avoidWeight,
       ratAsin localY * s.flock2Config.avoidWeight)
  let yawPitch : ℚ × ℚ :=
    if acc.topo.length > 0 then
      let sums := acc.topo.foldl (fun (t : (ℚ × ℚ × ℚ) × (ℚ × ℚ × ℚ)) e =>
        let j := e.2
        ((t.1.1 + s.velX.getD j 0, t.1.2.1 + s.velY.getD j 0,
          t.1.2.2 + (if s.zModeEnabled then s.velZ.getD j 0 else 0)),
         (t.2.1 + axisDelta (s.posX.getD j 0 - px) wrapX,
          t.2.2.1 + axisDelta (s.posY.getD j 0 - py) wrapY,
          t.2.2.2 + (if s.zModeEnabled then
            axisDelta (s.posZ.getD j 0 - pz) wrapZ else 0))))
        ((0, 0, 0), (0, 0, 0))
      let invN : ℚ := 1 / (acc.topo.length : ℚ)
      let av := (sums.1.1 * invN, sums.1.2.1 * invN, sums.1.2.2 * invN)
      let ap := (sums.2.1 * invN, sums.2.2.1 * invN, sums.2.2.2 * invN)
      let al := normalizeOrDefault av.1 av.2.1 av.2.2 0 0 0
      let alX := dot3 al.1 al.2.1 al.2.2 fwd.1 fwd.2.1 fwd.2.2
      let alY := rclamp (dot3 al.1 al.2.1 al.2.2 up.1 up.2.1 up.2.2) (-1) 1
      let alZ := dot3 al.1 al.2.1 al.2.2 right.1 right.2.1 right.2.2
      let yaw1 := yawPitch.1 + ratAtan2 alZ alX * s.flock2Config.alignWeight
      let pitch1 := yawPitch.2 + ratAsin alY * s.flock2Config.alignWeight
      let co := normalizeOrDefault ap.1 ap.2.1 ap.2.2 0 0 0
      let coX := dot3 co.1 co.2.1 co.2.2 fwd.1 fwd.2.1 fwd.2.2
      let coY := rclamp (dot3 co.1 co.2.1 co.2.2 up.1 up.2.1 up.2.2) (-1) 1
      let coZ := dot3 co.1 co.2.1 co.2.2 right.1 right.2.1 right.2.2
      (yaw1 + ratAtan2 coZ coX * s.flock2Config.cohesionWeight,
       pitch1 + ratAsin coY * s.flock2Config.cohesionWeight)
    else yawPitch
  let yawPitch : ℚ × ℚ :=
    if s.flock2Config.boundaryCount > EPS ∧
        (acc.visibleNeighbors : ℚ) < s.flock2Config.boundaryCount then
      let boundaryRatio := rclamp
        ((s.flock2Config.boundaryCount - (acc.visibleNeighbors : ℚ)) /
          s.flock2Config.boundaryCount) 0 1
      let tcx := axisDelta (centroidX - px) wrapX
      let tcy := axisDelta (centroidY - py) wrapY
      let tcz := if s.zModeEnabled then axisDelta (centroidZ - pz) wrapZ else 0
      let b := normalizeOrDefault tcx tcy tcz 0 0 0
      let bX := dot3 b.1 b.2.1 b.2.2 fwd.1 fwd.2.1 fwd.2.2
      let bY := rclamp (dot3 b.1 b.2.1 b.2.2 up.1 up.2.1 up.2.2) (-1) 1
      let bZ := dot3 b.1 b.2.1 b.2.2 right.1 right.2.1 right.2.2
      (yawPitch.1 + ratAtan2 bZ bX * s.flock2Config.boundaryWeight
        * boundaryRatio,
       yawPitch.2 + ratAsin bY * s.flock2Config.boundaryWeight
        * boundaryRatio)
    else yawPitch
  let reactionGain := rclamp (dt * 1000 / s.flock2Config.reactionTimeMs) 0 1
  let nextHeading := rotateVectorAroundAxis (fwd.1, fwd.2.1, fwd.2.2)
    (up.1, up.2.1, up.2.2) (-yawPitch.1 * reactionGain)
  let nextBasis := headingBasis nextHeading.1 nextHeading.2.1 nextHeading.2.2
  let nextHeading := rotateVectorAroundAxis nextHeading nextBasis.2.2
    (yawPitch.2 * reactionGain)
  let h := normalizeOrDefault nextHeading.1 nextHeading.2.1
    (if s.zModeEnabled then nextHeading.2.2 else 0) 1 0 0
  (h.1, h.2.1, h.2.2, acc.candidatesVisited)

/-- The flock centroid loop shared by both flock2 steps (full: lines
137-152; lite: lines 399-414). -/
def flockCentroid (s : SimState) : ℚ × ℚ × ℚ :=
  let sums := foldRange s.activeCount (fun (t : ℚ × ℚ × ℚ) i =>
    (t.1 + s.posX.getD i 0, t.2.1 + s.posY.getD i 0,
     t.2.2 + (if s.zModeEnabled then s.posZ.getD i 0 else ZLAYER))) (0, 0, 0)
  let invActive : ℚ := 1 / (s.activeCount : ℚ)
  (sums.1 * invActive, sums.2.1 * invActive, sums.2.2 * invActive)

/-- The per-agent tail of `step_flock2` (`model_flock2.rs` lines 163-379):
adopt the computed heading, speed handling, optional flight forces, shape
attraction, speed renormalization, stability blending and world-scale
position integration. -/
def flock2IntegrateAgent (st : SimState) (dt : ℚ) (withFlight : Bool)
    (i : ℕ) : SimState :=
  let hx := st.accelX.getD i 0
  let hy := st.accelY.getD i 0
  let hz := if st.zModeEnabled then st.accelZ.getD i 0 else 0
  let speed0 := ratSqrt (st.velX.getD i 0 * st.velX.getD i 0
    + st.velY.getD i 0 * st.velY.getD i 0
    + (if st.zModeEnabled then st.velZ.getD i 0 * st.velZ.getD i 0 else 0))
  let speed1 := if speed0 ≤ EPS then st.flock2Config.minSpeed else speed0
  let speed := rclamp speed1 st.flock2Config.minSpeed st.flock2Config.maxSpeed
  let va : (ℚ × ℚ × ℚ) × (ℚ × ℚ × ℚ) :=
    if withFlight then
      let vAxis : ℚ × ℚ × ℚ :=
        if speed > EPS then
          (st.velX.getD i 0 / speed, st.velY.getD i 0 / speed,
           if st.zModeEnabled then st.velZ.getD i 0 / speed else 0)
        else (hx, hy, hz)
      let basis := headingBasis hx hy (if st.zModeEnabled then hz else 0)
      let up := basis.2.1
      let dynamicPressure := (0.5 : ℚ) * st.flock2Config.airDensity
        * (max speed st.flock2Config.minSpeed) ^ 2
      let liftMag := dynamicPressure * st.flock2Config.liftFactor
        * st.flock2Config.wingArea
      let dragMag := dynamicPressure * st.flock2Config.dragFactor
        * st.flock2Config.wingArea
      let gravityForce := st.flock2Config.gravity * st.flock2Config.mass
      let liftZ := if st.zModeEnabled then up.2.2 * liftMag else 0
      let dragZ := if st.zModeEnabled then -vAxis.2.2 * dragMag else 0
      let thrustZ := if st.zModeEnabled then hz * st.flock2Config.thrust else 0
      let forceX := up.1 * liftMag + (-vAxis.1 * dragMag)
        + hx * st.flock2Config.thrust
      let forceY := up.2.1 * liftMag + (-vAxis.2.1 * dragMag)
        + hy * st.flock2Config.thrust - gravityForce
      let forceZ := if st.zModeEnabled then liftZ + dragZ + thrustZ else 0
      let ax := forceX / st.flock2Config.mass
      let ay := forceY / st.flock2Config.mass
      let az := if st.zModeEnabled then forceZ / st.flock2Config.mass else 0
      ((st.velX.getD i 0 + ax * dt, st.velY.getD i 0 + ay * dt,
        if st.zModeEnabled then st.velZ.getD i 0 + az * dt else 0),
       (ax, ay, az))
    else
      ((hx * speed, hy * speed, if st.zModeEnabled then hz * speed else 0),
       (0, 0, 0))
  let vel := va.1
  let sh := shapeAttractorForce st i
  let vel : ℚ × ℚ × ℚ := (vel.1 + sh.1 * dt, vel.2.1 + sh.2.1 * dt,
    if st.zModeEnabled then vel.2.2 + sh.2.2 * dt else 0)
  let nv := normalizeToMagnitude st.config.mathMode vel.1 vel.2.1
    (if st.zModeEnabled then vel.2.2 else 0)
    (clampFiniteQ (ratSqrt (vel.1 * vel.1 + vel.2.1 * vel.2.1 +
        (if st.zModeEnabled then vel.2.2 * vel.2.2 else 0)))
      st.flock2Config.minSpeed st.flock2Config.maxSpeed
      st.flock2Config.minSpeed)
  let vel : ℚ × ℚ × ℚ := (nv.1, nv.2.1, if st.zModeEnabled then nv.2.2 else 0)
  let velNorm := normalizeOrDefault vel.1 vel.2.1
    (if st.zModeEnabled then vel.2.2 else 0) hx hy
    (if st.zModeEnabled then hz else 0)
  let stabilityGain := if withFlight then
      rclamp (st.flock2Config.dynamicStability * dt * 60) 0 1
    else 0
  let blendedX := hx * (1 - stabilityGain) + velNorm.1 * stabilityGain
  let blendedY := hy * (1 - stabilityGain) + velNorm.2.1 * stabilityGain
  let blendedZ := if st.zModeEnabled then
      hz * (1 - stabilityGain) + velNorm.2.2 * stabilityGain
    else 0
  let hFinal := normalizeOrDefault blendedX blendedY blendedZ 1 0 0
  let vxWorld := vel.1 * 0.02
  let vyWorld := vel.2.1 * 0.02
  let vzWorld := if st.zModeEnabled then vel.2.2 * 0.02 else 0
  let rx := integrateAxis (st.posX.getD i 0) vxWorld dt st.bounceX
  let ry := integrateAxis (st.posY.getD i 0) vyWorld dt st.bounceY
  let rz := if st.zModeEnabled then
      integrateAxis (st.posZ.getD i 0) vzWorld dt st.bounceZ
    else (ZLAYER, 0)
  { st with
    headingX := st.headingX.set i hFinal.1
    headingY := st.headingY.set i hFinal.2.1
    headingZ := st.headingZ.set i
      (if st.zModeEnabled then hFinal.2.2 else 0)
    accelX := st.accelX.set i va.2.1
    accelY := st.accelY.set i va.2.2.1
    accelZ := st.accelZ.set i va.2.2.2
    posX := st.posX.set i rx.1
    posY := st.posY.set i ry.1
    posZ := st.posZ.set i rz.1
    velX := st.velX.set i (rx.2 / 0.02)
    velY := st.velY.set i (ry.2 / 0.02)
    velZ := st.velZ.set i (if st.zModeEnabled then rz.2 / 0.02 else 0) }

/-- Everything in `step_flock2` before `sync_render_buffers` (lines
124-379). -/
def flock2MainPhase (s : SimState) (dt : ℚ) (withFlight : Bool) : SimState :=
  let s := { s with
    stepIndex := u32 (s.stepIndex + 1)
    neighborsVisitedLastStep := 0
    flock2Config := s.flock2Config.sanitizeQ }
  let grid := rebuildGrid s s.flock2Config.neighborRadius
  let c := flockCentroid s
  let s := foldRange s.activeCount (fun st i =>
    let r := computeFlock2Heading grid st i dt c.1 c.2.1 c.2.2
    { st with
      accelX := st.accelX.set i r.1
      accelY := st.accelY.set i r.2.1
      accelZ := st.accelZ.set i r.2.2.1
      neighborsVisitedLastStep := st.neighborsVisitedLastStep + r.2.2.2 }) s
  let s := foldRange s.activeCount (fun st i =>
    let st := { st with
      headingX := st.headingX.set i (st.accelX.getD i 0)
      headingY := st.headingY.set i (st.accelY.getD i 0)
      headingZ := st.headingZ.set i
        (if st.zModeEnabled then st.accelZ.getD i 0 else 0) }
    flock2IntegrateAgent st dt withFlight i) s
  s

/-- `step_flock2` from `model_flock2.rs` (lines 123-383): heading pass,
speed/flight pass with world-scale integration, then the render mirror
(no hard-constraint resolver on this path). -/
def stepFlock2 (s : SimState) (dt : ℚ) (withFlight : Bool) : SimState :=
  syncRender (flock2MainPhase s dt withFlight)

/-- Accumulator of the `compute_flock2_lite_heading` closure. -/
structure LiteAcc where
  sepX : ℚ
  sepY : ℚ
  sepZ : ℚ
  alignX : ℚ
  alignY : ℚ
  alignZ : ℚ
  cohX : ℚ
  cohY : ℚ
  cohZ : ℚ
  visibleCount : ℕ
  visitedCount : ℕ

/-- `compute_flock2_lite_heading` from `model_flock2.rs` (lines 752-923):
blended separation/alignment/cohesion force with FOV filtering and a
visit cap, linearly interpolated into the heading by the reaction gain.
Returns `(hx, hy, hz, visited_count)`. -/
def computeFlock2LiteHeading (grid : GridSnap) (s : SimState) (i : ℕ)
    (dt : ℚ) (centroidX centroidY centroidZ : ℚ) : ℚ × ℚ × ℚ × ℕ :=
  let wrapX := !s.bounceX
  let wrapY := !s.bounceY
  let wrapZ := !s.bounceZ
  let px := s.posX.getD i 0
  let py := s.posY.getD i 0
  let pz := s.posZ.getD i 0
  let fwd := normalizeOrDefault (s.headingX.getD i 0) (s.headingY.getD i 0)
    (if s.zModeEnabled then s.headingZ.getD i 0 else 0) 1 0 0
  let fovCos := s.flock2Config.fovCos
  let radiusSq := s.flock2Config.neighborRadius * s.flock2Config.neighborRadius
  let neighborCap := min s.flock2Config.topologicalNeighbors 16
  let acc := (grid.visits i s.flock2Config.neighborRadius wrapX wrapY).foldl
    (fun (a : LiteAcc) j =>
      if neighborCap ≤ a.visitedCount then a
      else
        let dx := axisDelta (s.posX.getD j 0 - px) wrapX
        let dy := axisDelta (s.posY.getD j 0 - py) wrapY
        let dz := if s.zModeEnabled then
            axisDelta (s.posZ.getD j 0 - pz) wrapZ
          else 0
        let distSq := distanceSq3d dx dy dz
        if distSq ≤ EPS ∨ distSq > radiusSq then a
        else
          let invDist := 1 / ratSqrt distSq
          let dirX := dx * invDist
          let dirY := dy * invDist
          let dirZ := if s.zModeEnabled then dz * invDist else 0
          let forwardDot := dot3 fwd.1 fwd.2.1 fwd.2.2 dirX dirY dirZ
          if forwardDot < fovCos then a
          else
            let invDsq := 1 / max distSq 0.0001
            let av := normalizeOrDefault (s.velX.getD j 0) (s.velY.getD j 0)
              (if s.zModeEnabled then s.velZ.getD j 0 else 0) 0 0 0
            { a with
              visitedCount := a.visitedCount + 1
              visibleCount := a.visibleCount + 1
              sepX := a.sepX - dirX * invDsq
              sepY := a.sepY - dirY * invDsq
              sepZ := a.sepZ - dirZ * invDsq
              alignX := a.alignX + av.1
              alignY := a.alignY + av.2.1
              alignZ := a.alignZ + av.2.2
              cohX := a.cohX + dirX
              cohY := a.cohY + dirY
              cohZ := a.cohZ + dirZ })
    { sepX := 0, sepY := 0, sepZ := 0, alignX := 0, alignY := 0, alignZ := 0,
      cohX := 0, cohY := 0, cohZ := 0, visibleCount := 0, visitedCount := 0 }
  let a := if acc.visibleCount > 0 then
      let invN : ℚ := 1 / (acc.visibleCount : ℚ)
      { acc with
        alignX := acc.alignX * invN
        alignY := acc.alignY * invN
        alignZ := acc.alignZ * invN
        cohX := acc.cohX * invN
        cohY := acc.cohY * invN
        cohZ := acc.cohZ * invN }
    else acc
  let targetX := a.sepX * s.flock2Config.avoidWeight
    + a.alignX * s.flock2Config.alignWeight
    + a.cohX * s.flock2Config.cohesionWeight
  let targetY := a.sepY * s.flock2Config.avoidWeight
    + a.alignY * s.flock2Config.alignWeight
    + a.cohY * s.flock2Config.cohesionWeight
  let targetZ := a.sepZ * s.flock2Config.avoidWeight
    + a.alignZ * s.flock2Config.alignWeight
    + a.cohZ * s.flock2Config.cohesionWeight
  let target : ℚ × ℚ × ℚ :=
    if s.flock2Config.boundaryCount > EPS ∧
        (a.visibleCount : ℚ) < s.flock2Config.boundaryCount then
      let boundaryRatio := rclamp
        ((s.flock2Config.boundaryCount - (a.visibleCount : ℚ)) /
          s.flock2Config.boundaryCount) 0 1
      let tcx := axisDelta (centroidX - px) wrapX
      let tcy := axisDelta (centroidY - py) wrapY
      let tcz := if s.zModeEnabled then axisDelta (centroidZ - pz) wrapZ else 0
      let bc := normalizeOrDefault tcx tcy tcz 0 0 0
      (targetX + bc.1 * s.flock2Config.boundaryWeight * boundaryRatio,
       targetY + bc.2.1 * s.flock2Config.boundaryWeight * boundaryRatio,
       targetZ + bc.2.2 * s.flock2Config.boundaryWeight * boundaryRatio)
    else (targetX, targetY, targetZ)
  let t := normalizeOrDefault target.1 target.2.1
    (if s.zModeEnabled then target.2.2 else 0) fwd.1 fwd.2.1
    (if s.zModeEnabled then fwd.2.2 else 0)
  let reactionGain := rclamp (dt * 1000 / s.flock2Config.reactionTimeMs) 0 1
  let blendX := fwd.1 * (1 - reactionGain) + t.1 * reactionGain
  let blendY := fwd.2.1 * (1 - reactionGain) + t.2.1 * reactionGain
  let blendZ := if s.zModeEnabled then
      fwd.2.2 * (1 - reactionGain) + t.2.2 * reactionGain
    else 0
  let h := normalizeOrDefault blendX blendY blendZ fwd.1 fwd.2.1
    (if s.zModeEnabled then fwd.2.2 else 0)
  (h.1, h.2.1, h.2.2, a.visitedCount)

/-- The per-agent tail of `step_flock2_lite` (lines 425-520): scalar speed
with optional flight losses, shape attraction, renormalization and
world-scale integration (the heading stays the computed one). -/
def liteIntegrateAgent (st : SimState) (dt : ℚ) (withFlight : Bool)
    (i : ℕ) : SimState :=
  let hx := st.accelX.getD i 0
  let hy := st.accelY.getD i 0
  let hz := if st.zModeEnabled then st.accelZ.getD i 0 else 0
  let speed0 := max (ratSqrt (st.velX.getD i 0 * st.velX.getD i 0
    + st.velY.getD i 0 * st.velY.getD i 0
    + (if st.zModeEnabled then st.velZ.getD i 0 * st.velZ.getD i 0 else 0)))
    st.flock2Config.minSpeed
  let speed1 := if withFlight then
      let dragLoss := st.flock2Config.dragFactor * speed0 * speed0 * 0.01
      let climbLoss := st.flock2Config.gravity * max hy 0 * 0.02
      speed0 + (st.flock2Config.thrust - dragLoss - climbLoss) * dt
    else speed0
  let speed := rclamp speed1 st.flock2Config.minSpeed st.flock2Config.maxSpeed
  let vel : ℚ × ℚ × ℚ :=
    (hx * speed, hy * speed, if st.zModeEnabled then hz * speed else 0)
  let sh := shapeAttractorForce st i
  let vel : ℚ × ℚ × ℚ := (vel.1 + sh.1 * dt, vel.2.1 + sh.2.1 * dt,
    if st.zModeEnabled then vel.2.2 + sh.2.2 * dt else 0)
  let nv := normalizeToMagnitude st.config.mathMode vel.1 vel.2.1
    (if st.zModeEnabled then vel.2.2 else 0)
    (clampFiniteQ (ratSqrt (vel.1 * vel.1 + vel.2.1 * vel.2.1 +
        (if st.zModeEnabled then vel.2.2 * vel.2.2 else 0)))
      st.flock2Config.minSpeed st.flock2Config.maxSpeed
      st.flock2Config.minSpeed)
  let vel : ℚ × ℚ × ℚ := (nv.1, nv.2.1, if st.zModeEnabled then nv.2.2 else 0)
  let vxWorld := vel.1 * 0.02
  let vyWorld := vel.2.1 * 0.02
  let vzWorld := if st.zModeEnabled then vel.2.2 * 0.02 else 0
  let rx := integrateAxis (st.posX.getD i 0) vxWorld dt st.bounceX
  let ry := integrateAxis (st.posY.getD i 0) vyWorld dt st.bounceY
  let rz := if st.zModeEnabled then
      integrateAxis (st.posZ.getD i 0) vzWorld dt st.bounceZ
    else (ZLAYER, 0)
  { st with
    posX := st.posX.set i rx.1
    posY := st.posY.set i ry.1
    posZ := st.posZ.set i rz.1
    velX := st.velX.set i (rx.2 / 0.02)
    velY := st.velY.set i (ry.2 / 0.02)
    velZ := st.velZ.set i (if st.zModeEnabled then rz.2 / 0.02 else 0) }

/-- Everything in `step_flock2_lite` before `sync_render_buffers` (lines
386-520). -/
def liteMainPhase (s : SimState) (dt : ℚ) (withFlight : Bool) : SimState :=
  let s := { s with
    stepIndex := u32 (s.stepIndex + 1)
    neighborsVisitedLastStep := 0
    flock2Config := s.flock2Config.sanitizeQ }
  let grid := rebuildGrid s s.flock2Config.neighborRadius
  let c := flockCentroid s
  let s := foldRange s.activeCount (fun st i =>
    let r := computeFlock2LiteHeading grid st i dt c.1 c.2.1 c.2.2
    { st with
      accelX := st.accelX.set i r.1
      accelY := st.accelY.set i r.2.1
      accelZ := st.accelZ.set i r.2.2.1
      neighborsVisitedLastStep := st.neighborsVisitedLastStep + r.2.2.2 }) s
  let s := foldRange s.activeCount (fun st i =>
    let st := { st with
      headingX := st.headingX.set i (st.accelX.getD i 0)
      headingY := st.headingY.set i (st.accelY.getD i 0)
      headingZ := st.headingZ.set i
        (if st.zModeEnabled then st.accelZ.getD i 0 else 0) }
    liteIntegrateAgent st dt withFlight i) s
  s

/-- `step_flock2_lite` from `model_flock2.rs` (lines 385-524): lite heading
pass, scalar-speed integration, then the render mirror (no hard-constraint
resolver on this path). -/
def stepFlock2Lite (s : SimState) (dt : ℚ) (withFlight : Bool) : SimState :=
  syncRender (liteMainPhase s dt withFlight)

/-- The step pipeline C2 claims for the flock2 paths, following the spec's
words: "integrates position against boundary policy → runs the
hard-constraint resolver → mirrors state into render output". -/
def stepFlock2Claimed (s : SimState) (dt : ℚ) (withFlight : Bool) :
    SimState :=
  syncRender (resolveHard (flock2MainPhase s dt withFlight))

/-- The claimed pipeline for the lite path (same spec sentence). -/
def stepFlock2LiteClaimed (s : SimState) (dt : ℚ) (withFlight : Bool) :
    SimState :=
  syncRender (resolveHard (liteMainPhase s dt withFlight))

/-! ### Concrete states and pipeline variants used by individual claims -/

/-- The work of `step_classic` before the hard-constraint resolver
(`model_classic.rs` lines 7-140): counter reset, then the fast or main
path depending on whether steering is disabled. -/
def classicPrefix (s : SimState) (dt : ℚ) : SimState :=
  let s := { s with
    stepIndex := u32 (s.stepIndex + 1)
    neighborsVisitedLastStep := 0 }
  let steeringDisabled := s.config.maxForce ≤ EPS ∨
    ((s.config.sepWeight ≤ EPS ∧ s.config.alignWeight ≤ EPS ∧
      s.config.cohWeight ≤ EPS) ∧ s.config.jitterStrength ≤ EPS ∧
      s.config.shapeAttractorWeight ≤ EPS)
  let dragDamping := if s.config.drag ≤ EPS then 1
    else ratExp (-(s.config.drag * dt))
  if steeringDisabled then classicFastPath s dragDamping dt
  else classicMainPath s dragDamping dt

/-- A two-agent coincident state on the flock2 model, with a positive
`hard_min_distance`. -/
def c2State : SimState :=
  { count := 2, activeCount := 2, width := 1, height := 1
    config := { defaultSimCfg with hardMinDistance := 0.2 }
    flock2Config := defaultFlock2Cfg
    modelKind := .flock2Social
    bounceX := false, bounceY := false, bounceZ := false
    zModeEnabled := false, zForceScale := 0.75
    posX := [0.5, 0.5], posY := [0.5, 0.5], posZ := [0.5, 0.5]
    velX := [0, 0], velY := [0, 0], velZ := [0, 0]
    accelX := [0, 0], accelY := [0, 0], accelZ := [0, 0]
    headingX := [1, 1], headingY := [0, 0], headingZ := [0, 0]
    renderXY := [0.5, 0.5, 0.5, 0.5], renderZ := [0.5, 0.5]
    shapePoints := [(0.5, 0.5, 0.5)]
    neighborsVisitedLastStep := 0, stepIndex := 0 }

/-- A two-agent state at exact distance 0.5. -/
def c3WitnessState : SimState :=
  { count := 2, activeCount := 2, width := 1, height := 1
    config := { defaultSimCfg with hardMinDistance := 0.6 }
    flock2Config := defaultFlock2Cfg
    modelKind := .classic
    bounceX := false, bounceY := false, bounceZ := false
    zModeEnabled := false, zForceScale := 0.75
    posX := [0.1, 0.4], posY := [0.1, 0.5], posZ := [0.5, 0.5]
    velX := [0, 0], velY := [0, 0], velZ := [0, 0]
    accelX := [0, 0], accelY := [0, 0], accelZ := [0, 0]
    headingX := [1, 1], headingY := [0, 0], headingZ := [0, 0]
    renderXY := [0.1, 0.1, 0.4, 0.5], renderZ := [0.5, 0.5]
    shapePoints := [(0.5, 0.5, 0.5)]
    neighborsVisitedLastStep := 0, stepIndex := 0 }

/-- A two-agent state with a positive neighbor sample cap. -/
def c7WitnessState : SimState :=
  { count := 2, activeCount := 2, width := 1, height := 1
    config := { defaultSimCfg with maxNeighborsSampled := 4 }
    flock2Config := defaultFlock2Cfg
    modelKind := .classic
    bounceX := false, bounceY := false, bounceZ := false
    zModeEnabled := false, zForceScale := 0.75
    posX := [0.1, 0.4], posY := [0.1, 0.5], posZ := [0.5, 0.5]
    velX := [0, 0], velY := [0, 0], velZ := [0, 0]
    accelX := [0, 0], accelY := [0, 0], accelZ := [0, 0]
    headingX := [1, 1], headingY := [0, 0], headingZ := [0, 0]
    renderXY := [0.1, 0.1, 0.4, 0.5], renderZ := [0.5, 0.5]
    shapePoints := [(0.5, 0.5, 0.5)]
    neighborsVisitedLastStep := 0, stepIndex := 0 }

/-! ### Generic loop and list lemmas -/

theorem foldl_preserves {α β : Type} (P : α → Prop) (f : α → β → α)
    (l : List β) (init : α) (h : ∀ a b, P a → P (f a b)) (h0 : P init) :
    P (l.foldl f init) := by
  induction l generalizing init with
  | nil => exact h0
  | cons b t ih => exact ih (f init b) (h init b h0)

theorem foldRange_preserves {α : Type} (P : α → Prop) (n : ℕ) (f : α → ℕ → α)
    (init : α) (h : ∀ a i, P a → P (f a i)) (h0 : P init) :
    P (foldRange n f init) :=
  foldl_preserves P f (List.range n) init h h0

theorem foldl_proj {α β γ : Type} (proj : α → γ) (f : α → β → α)
    (g : γ → β → γ) (l : List β) (init : α)
    (h : ∀ a b, proj (f a b) = g (proj a) b) :
    proj (l.foldl f init) = l.foldl g (proj init) := by
  induction l generalizing init with
  | nil => rfl
  | cons b t ih => rw [List.foldl_cons, List.foldl_cons, ih, h]

theorem foldl_proj_const {α β γ : Type} (proj : α → γ) (f : α → β → α)
    (l : List β) (init : α) (h : ∀ a b, proj (f a b) = proj a) :
    proj (l.foldl f init) = proj init := by
  induction l generalizing init with
  | nil => rfl
  | cons b t ih => rw [List.foldl_cons, ih, h]

theorem mem_set_all {α : Type} {c : α} :
    ∀ {l : List α} {i : ℕ} {v : α}, (∀ q ∈ l, q = c) → v = c →
      ∀ q ∈ l.set i v, q = c := by
  intro l
  induction l with
  | nil => intro i v _ _ q hq; simp at hq
  | cons a t ih =>
    intro i v hall hv q hq
    cases i with
    | zero =>
      rw [show (a :: t).set 0 v = v :: t from rfl] at hq
      rcases List.mem_cons.mp hq with hq | hq
      · exact hq ▸ hv
      · exact hall q (List.mem_cons_of_mem _ hq)
    | succ n =>
      rw [show (a :: t).set (n + 1) v = a :: t.set n v from rfl] at hq
      rcases List.mem_cons.mp hq with hq | hq
      · exact hall q (hq ▸ List.mem_cons_self _ _)
      · exact ih (fun x hx => hall x (List.mem_cons_of_mem _ hx)) hv q hq

/-! ### Claim C4 -/

theorem reflectLoop_eq_specMirror :
    ∀ (n : ℕ) (p v : ℚ), reflectLoop n p v = specMirror n p v := by
  intro n
  induction n with
  | zero => intro p v; rfl
  | succ m ih =>
    intro p v
    show (if 0 ≤ p ∧ p ≤ WORLD then (p, v)
        else if p < 0 then reflectLoop m (-p) (-v)
        else reflectLoop m (WORLD * 2 - p) (-v)) =
      (if p < 0 then specMirror m (-p) (-v)
        else if p > WORLD then specMirror m (2 * WORLD - p) (-v)
        else (p, v))
    by_cases hin : 0 ≤ p ∧ p ≤ WORLD
    · rw [if_pos hin, if_neg (not_lt.mpr hin.1), if_neg (not_lt.mpr hin.2)]
    · rw [if_neg hin]
      by_cases hneg : p < 0
      · rw [if_pos hneg, if_pos hneg, ih]
      · have hover : WORLD < p := by
          rcases not_and_or.mp hin with h | h
          · exact absurd (le_of_not_lt hneg) h
          · exact not_le.mp h
        rw [if_neg hneg, if_neg hneg, if_pos hover, ih,
          show WORLD * 2 - p = 2 * WORLD - p by ring]

/-- Claim C4: per axis, `integrate_axis` on a wrapping axis returns
`((pos + v·dt) mod world_size, v)`; on a reflecting axis it tentatively
advances, applies at most 4 mirror corrections (`p < 0 ↦ -p`,
`p > world ↦ 2·world - p`, negating velocity each time) and finally clamps
into `[0, world_size]` — exactly the spec-side `specIntegrateWrap` /
`specIntegrateReflect`. -/
theorem c4_integrate_axis_matches_spec (p v dt : ℚ) (bounce : Bool) :
    integrateAxis p v dt bounce =
      if bounce then specIntegrateReflect p v dt
      else specIntegrateWrap p v dt := by
  cases bounce with
  | false => rfl
  | true =>
    simp only [integrateAxis, specIntegrateReflect, Bool.not_true, if_true,
      Bool.false_eq_true, if_false, reflectLoop_eq_specMirror]

/-! ### Claim C9 -/

/-- Claim C9: the model-switch reseed never touches any agent's position
(nor the scratch acceleration or render mirrors): `pos_x`, `pos_y`, `pos_z`
are identical before and after `reseed_velocity_for_model`; only the
velocity and heading arrays change. -/
theorem c9_reseed_preserves_position (s : SimState) :
    (reseedVelocityForModel s).posX = s.posX ∧
    (reseedVelocityForModel s).posY = s.posY ∧
    (reseedVelocityForModel s).posZ = s.posZ ∧
    (reseedVelocityForModel s).accelX = s.accelX ∧
    (reseedVelocityForModel s).accelY = s.accelY ∧
    (reseedVelocityForModel s).accelZ = s.accelZ ∧
    (reseedVelocityForModel s).renderXY = s.renderXY ∧
    (reseedVelocityForModel s).renderZ = s.renderZ := by
  cases hm : s.modelKind <;>
    · simp only [reseedVelocityForModel, hm]
      exact ⟨foldRange_preserves (fun (a : SimState) => a.posX = s.posX) _ _ _
          (fun a i h => h) rfl,
        foldRange_preserves (fun (a : SimState) => a.posY = s.posY) _ _ _
          (fun a i h => h) rfl,
        foldRange_preserves (fun (a : SimState) => a.posZ = s.posZ) _ _ _
          (fun a i h => h) rfl,
        foldRange_preserves (fun (a : SimState) => a.accelX = s.accelX) _ _ _
          (fun a i h => h) rfl,
        foldRange_preserves (fun (a : SimState) => a.accelY = s.accelY) _ _ _
          (fun a i h => h) rfl,
        foldRange_preserves (fun (a : SimState) => a.accelZ = s.accelZ) _ _ _
          (fun a i h => h) rfl,
        foldRange_preserves (fun (a : SimState) => a.renderXY = s.renderXY) _ _ _
          (fun a i h => h) rfl,
        foldRange_preserves (fun (a : SimState) => a.renderZ = s.renderZ) _ _ _
          (fun a i h => h) rfl⟩

/-! ### Claim C8 -/

/-- Claim C8 (amended): in both math modes `limit_magnitude` returns the
zero vector when `max_mag ≤ 0` and returns `v` unchanged when `|v|² ≤
max_mag²`; in the accurate mode, a vector exceeding the bound (with
rationally exact magnitude `r`) is rescaled to squared magnitude exactly
`max_mag²`.  (The fast mode only approximates the rescale — see the
counterexample.) -/
theorem c8_limit_magnitude_amended :
    (∀ (mode : MathMode) (x y z m : ℚ), m ≤ 0 →
        limitMagnitude3d mode x y z m = (0, 0, 0)) ∧
    (∀ (mode : MathMode) (x y z m : ℚ), ¬m ≤ 0 →
        distanceSq3d x y z ≤ m * m →
        limitMagnitude3d mode x y z m = (x, y, z)) ∧
    (∀ (x y z m r : ℚ), 0 < m → 0 ≤ r → r * r = distanceSq3d x y z →
        m * m < distanceSq3d x y z →
        distanceSq3d (limitMagnitude3d .accurate x y z m).1
          (limitMagnitude3d .accurate x y z m).2.1
          (limitMagnitude3d .accurate x y z m).2.2 = m * m) := by
  refine ⟨?_, ?_, ?_⟩
  · intro mode x y z m hm
    simp only [limitMagnitude3d, if_pos hm]
  · intro mode x y z m hm hle
    simp only [limitMagnitude3d, if_neg hm, if_pos hle]
  · intro x y z m r hm hr hsq hlt
    have hmagpos : 0 < distanceSq3d x y z :=
      lt_trans (mul_pos hm hm) hlt
    have hrne : r ≠ 0 := by
      intro h0
      rw [h0, mul_zero] at hsq
      exact absurd hsq.symm (ne_of_gt hmagpos)
    simp only [limitMagnitude3d, if_neg (not_le.mpr hm),
      if_neg (not_le.mpr hlt), inverseSqrt]
    rw [← hsq, ratSqrt_mul_self hr]
    show distanceSq3d (x * (m * (1 / r))) (y * (m * (1 / r)))
        (z * (m * (1 / r))) = m * m
    have hexpand : distanceSq3d (x * (m * (1 / r))) (y * (m * (1 / r)))
        (z * (m * (1 / r))) = distanceSq3d x y z * (m * (1 / r)) ^ 2 := by
      simp only [distanceSq3d]
      ring
    rw [hexpand, ← hsq]
    field_simp
    ring

/-- Claim C8's counterexample: the fast mode does not rescale to exactly
`max_mag` — at `v = (0,0,10)`, `max_mag = 2` the conditions of the rescale
case hold, but the fast-mode result's squared magnitude differs from
`max_mag²` (the bit-trick inverse square root is only approximate). -/
theorem c8_fast_mode_not_exact :
    (0 : ℚ) < 2 ∧ (2 : ℚ) * 2 < distanceSq3d 0 0 10 ∧
    distanceSq3d (limitMagnitude3d .fast 0 0 10 2).1
      (limitMagnitude3d .fast 0 0 10 2).2.1
      (limitMagnitude3d .fast 0 0 10 2).2.2 ≠ 2 * 2 := by
  with_unfolding_all decide

/-- Witness for C8's amended theorem at concrete inputs. -/
theorem c8_limit_magnitude_amended_witness :
    limitMagnitude3d .fast 1 2 3 (-1) = (0, 0, 0) ∧
    limitMagnitude3d .fast 3 4 0 6 = (3, 4, 0) ∧
    distanceSq3d (limitMagnitude3d .accurate 3 4 0 1).1
      (limitMagnitude3d .accurate 3 4 0 1).2.1
      (limitMagnitude3d .accurate 3 4 0 1).2.2 = 1 * 1 :=
  ⟨c8_limit_magnitude_amended.1 .fast 1 2 3 (-1) (by norm_num),
   c8_limit_magnitude_amended.2.1 .fast 3 4 0 6 (by norm_num)
     (by norm_num [distanceSq3d]),
   c8_limit_magnitude_amended.2.2 3 4 0 1 5 (by norm_num) (by norm_num)
     (by norm_num [distanceSq3d]) (by norm_num [distanceSq3d])⟩

/-! ### Claim C10 -/

/-- Claim C10: with wrapping enabled and a cell radius spanning the grid
more than once (`2·cell_radius + 1 > cols`), a single query reports the
same neighbor repeatedly: on a 2×2 grid (world 1×1, cell size 0.5) with
radius 0.8 (cell radius 2, so 5 > 2), agent 0's query reports neighbor 1
nine times — and the hard-constraint resolver's collection deduplicates
such reports to `[1]`. -/
theorem c10_duplicate_neighbor_reports :
    ((0.8 : ℚ) / effCell 0.5).ceil = 2 ∧
    2 * 2 + 1 > gridCols 1 0.5 ∧
    (queryVisits [0.25, 0.3] [0.25, 0.25] 2 0.5 1 1 0 0.8 true true).count 1
      = 9 ∧
    collectResolveNeighbors 0
      (queryVisits [0.25, 0.3] [0.25, 0.25] 2 0.5 1 1 0 0.8 true true)
      = [1] := by
  with_unfolding_all decide

/-! ### Claim C1 -/

/-- Claim C1 (code behavior at the failing input): `scan_cell` as written
discards the callback's result (its `F: FnMut(usize)` bound returns unit),
so the query's invocation sequence is callback-independent — the embedding
`queryVisits` needs no callback parameter at all.  With agents 0, 1, 2
mutually within radius, agent 0's query invokes the callback for both
candidates (`[2, 1]`, bucket order), so a callback answering "stop" on its
first invocation is invoked again anyway. -/
theorem c1_stop_signal_ignored :
    queryVisits [0.5, 0.51, 0.52] [0.5, 0.5, 0.5] 3 0.08 1 1 0 0.08
      false false = [2, 1] := by
  with_unfolding_all decide

/-! ### Claim C5 -/

theorem clampFiniteO_between (v : Option ℚ) (lo hi fb : ℚ) (h1 : lo ≤ hi)
    (h2 : lo ≤ fb) (h3 : fb ≤ hi) :
    lo ≤ clampFiniteO v lo hi fb ∧ clampFiniteO v lo hi fb ≤ hi := by
  cases v with
  | none => exact ⟨h2, h3⟩
  | some q => exact ⟨le_rclamp _ _ _, rclamp_le _ _ _ h1⟩

theorem clampFiniteO_stable (v : Option ℚ) (lo hi fb : ℚ) (h1 : lo ≤ hi)
    (h2 : lo ≤ fb) (h3 : fb ≤ hi) :
    clampFiniteO (some (clampFiniteO v lo hi fb)) lo hi fb =
      clampFiniteO v lo hi fb := by
  obtain ⟨ha, hb⟩ := clampFiniteO_between v lo hi fb h1 h2 h3
  exact rclamp_of_le_of_le ha hb

/-- Claim C5 (amended): sanitization is idempotent for every configuration
whose dynamically-bounded fields — the classic `separation_radius` (bounded
above by `neighbor_radius`) and `max_speed` (bounded below by `min_speed`),
and the flock2 `max_speed` — hold finite values; all other fields may be
finite or non-finite. -/
theorem c5_sanitize_idempotent_on_finite :
    (∀ c : SimConfigF, c.separationRadius.isSome → c.maxSpeed.isSome →
      c.sanitize.sanitize = c.sanitize) ∧
    (∀ c : Flock2ConfigF, c.maxSpeed.isSome →
      c.sanitize.sanitize = c.sanitize) := by
  constructor
  · intro c hsep hms
    obtain ⟨sq, hsq⟩ := Option.isSome_iff_exists.mp hsep
    obtain ⟨mq, hmq⟩ := Option.isSome_iff_exists.mp hms
    have hnr := clampFiniteO_between c.neighborRadius 0.001 0.5 0.08
      (by norm_num) (by norm_num) (by norm_num)
    have hminsp := clampFiniteO_between c.minSpeed 0 3 0.045
      (by norm_num) (by norm_num) (by norm_num)
    simp only [SimConfigF.sanitize, hsq, hmq, SimConfigF.mk.injEq,
      Option.some.injEq]
    refine ⟨?_, ?_, ?_, ?_, ?_, ?_, ?_, ?_, ?_, ?_, ?_, ?_⟩
    · exact clampFiniteO_stable _ _ _ _ (by norm_num) (by norm_num)
        (by norm_num)
    · exact clampFiniteO_stable _ _ _ _ (by norm_num) (by norm_num)
        (by norm_num)
    · exact clampFiniteO_stable _ _ _ _ (by norm_num) (by norm_num)
        (by norm_num)
    · exact clampFiniteO_stable _ _ _ _ (by norm_num) (by norm_num)
        (by norm_num)
    · rw [clampFiniteO_stable c.neighborRadius 0.001 0.5 0.08 (by norm_num)
        (by norm_num) (by norm_num)]
      exact rclamp_idem _ _ _ (le_trans (by norm_num) hnr.1)
    · exact clampFiniteO_stable _ _ _ _ (by norm_num) (by norm_num)
        (by norm_num)
    · rw [clampFiniteO_stable c.minSpeed 0 3 0.045 (by norm_num)
        (by norm_num) (by norm_num)]
      exact rclamp_idem _ _ _
        (max_le hminsp.2 (by norm_num))
    · exact clampFiniteO_stable _ _ _ _ (by norm_num) (by norm_num)
        (by norm_num)
    · exact clampFiniteO_stable _ _ _ _ (by norm_num) (by norm_num)
        (by norm_num)
    · exact clampFiniteO_stable _ _ _ _ (by norm_num) (by norm_num)
        (by norm_num)
    · exact clampFiniteO_stable _ _ _ _ (by norm_num) (by norm_num)
        (by norm_num)
    · exact clampFiniteO_stable _ _ _ _ (by norm_num) (by norm_num)
        (by norm_num)
  · intro c hms
    obtain ⟨mq, hmq⟩ := Option.isSome_iff_exists.mp hms
    have hminsp := clampFiniteO_between c.minSpeed 0 200 5
      (by norm_num) (by norm_num) (by norm_num)
    simp only [Flock2ConfigF.sanitize, hmq, Flock2ConfigF.mk.injEq,
      Option.some.injEq]
    refine ⟨?_, ?_, ?_, ?_, ?_, ?_, ?_, ?_, ?_, ?_, ?_, ?_, ?_, ?_, ?_, ?_,
      ?_, ?_, ?_⟩
    · exact clampFiniteO_stable _ _ _ _ (by norm_num) (by norm_num)
        (by norm_num)
    · exact clampFiniteO_stable _ _ _ _ (by norm_num) (by norm_num)
        (by norm_num)
    · exact clampFiniteO_stable _ _ _ _ (by norm_num) (by norm_num)
        (by norm_num)
    · exact clampFiniteO_stable _ _ _ _ (by norm_num) (by norm_num)
        (by norm_num)
    · exact clampFiniteO_stable _ _ _ _ (by norm_num) (by norm_num)
        (by norm_num)
    · exact clampFiniteO_stable _ _ _ _ (by norm_num) (by norm_num)
        (by norm_num)
    · omega
    · exact clampFiniteO_stable _ _ _ _ (by norm_num) (by norm_num)
        (by norm_num)
    · exact clampFiniteO_stable _ _ _ _ (by norm_num) (by norm_num)
        (by norm_num)
    · exact clampFiniteO_stable _ _ _ _ (by norm_num) (by norm_num)
        (by norm_num)
    · exact clampFiniteO_stable _ _ _ _ (by norm_num) (by norm_num)
        (by norm_num)
    · exact clampFiniteO_stable _ _ _ _ (by norm_num) (by norm_num)
        (by norm_num)
    · exact clampFiniteO_stable _ _ _ _ (by norm_num) (by norm_num)
        (by norm_num)
    · exact clampFiniteO_stable _ _ _ _ (by norm_num) (by norm_num)
        (by norm_num)
    · exact clampFiniteO_stable _ _ _ _ (by norm_num) (by norm_num)
        (by norm_num)
    · exact clampFiniteO_stable _ _ _ _ (by norm_num) (by norm_num)
        (by norm_num)
    · rw [clampFiniteO_stable c.minSpeed 0 200 5 (by norm_num)
        (by norm_num) (by norm_num)]
      exact rclamp_idem _ _ _
        (max_le (le_trans hminsp.2 (by norm_num)) (by norm_num))
    · exact clampFiniteO_stable _ _ _ _ (by norm_num) (by norm_num)
        (by norm_num)
    · exact clampFiniteO_stable _ _ _ _ (by norm_num) (by norm_num)
        (by norm_num)

/-- The classic configuration falsifying C5 as stated: `separation_radius`
non-finite with `neighbor_radius = 0.001`. -/
def c5BadConfig : SimConfigF :=
  { sepWeight := some 1, alignWeight := some 1, cohWeight := some 1,
    neighborRadius := some 0.001, separationRadius := none,
    minSpeed := some 0.1, maxSpeed := some 0.2, maxForce := some 1,
    softMinDistance := some 0, hardMinDistance := some 0,
    jitterStrength := some 0, drag := some 0 }

/-- An all-finite flock2 configuration for the C5 witness. -/
def defaultFlock2ConfigF : Flock2ConfigF :=
  { avoidWeight := some 0.02, alignWeight := some 0.60,
    cohesionWeight := some 0.004, boundaryWeight := some 0.10,
    boundaryCount := some 20, neighborRadius := some 0.10,
    topologicalNeighbors := 7, fieldOfViewDeg := some 290,
    reactionTimeMs := some 250, dynamicStability := some 0.70,
    mass := some 0.08, wingArea := some 0.0224, liftFactor := some 0.5714,
    dragFactor := some 0.1731, thrust := some 0.2373, minSpeed := some 5,
    maxSpeed := some 18, gravity := some 9.8, airDensity := some 1.225 }

/-- A classic configuration with non-finite `max_speed` and large
`min_speed`, breaking idempotence through the `max_speed` fallback. -/
def c5BadConfig2 : SimConfigF :=
  { c5BadConfig with
    separationRadius := some 0.01
    minSpeed := some 3
    maxSpeed := none }

/-- A flock2 configuration with non-finite `max_speed` and large
`min_speed`. -/
def c5BadFlock2Config : Flock2ConfigF :=
  { defaultFlock2ConfigF with
    minSpeed := some 200
    maxSpeed := none }

/-- Claim C5's counterexample: sanitize is not idempotent on every input.
With `separation_radius` non-finite and `neighbor_radius = 0.001`, the
first pass substitutes the fallback `0.035` (outside the dynamic range
`[0.0005, neighbor_radius]`) and the second pass clamps it to `0.001`;
likewise for both `max_speed` fields, whose fallback can sit below the
dynamic lower bound `min_speed`. -/
theorem c5_sanitize_not_idempotent :
    c5BadConfig.sanitize.separationRadius = some 0.035 ∧
    c5BadConfig.sanitize.sanitize.separationRadius = some 0.001 ∧
    c5BadConfig.sanitize.sanitize ≠ c5BadConfig.sanitize ∧
    c5BadConfig2.sanitize.maxSpeed = some 0.19 ∧
    c5BadConfig2.sanitize.sanitize.maxSpeed = some 3 ∧
    c5BadFlock2Config.sanitize.maxSpeed = some 18 ∧
    c5BadFlock2Config.sanitize.sanitize.maxSpeed = some 200 := by
  refine ⟨by with_unfolding_all decide, by with_unfolding_all decide, ?_,
    by with_unfolding_all decide, by with_unfolding_all decide,
    by with_unfolding_all decide, by with_unfolding_all decide⟩
  intro h
  have : c5BadConfig.sanitize.sanitize.separationRadius =
      c5BadConfig.sanitize.separationRadius := by rw [h]
  rw [show c5BadConfig.sanitize.sanitize.separationRadius = some 0.001 by
      with_unfolding_all decide,
    show c5BadConfig.sanitize.separationRadius = some 0.035 by
      with_unfolding_all decide] at this
  simp only [Option.some.injEq] at this
  norm_num at this

/-- Witness for C5's amended theorem at a concrete configuration. -/
theorem c5_sanitize_idempotent_on_finite_witness :
    c5BadConfig.separationRadius.isSome = false ∧
    ({ c5BadConfig with separationRadius := some 0.01 } :
        SimConfigF).sanitize.sanitize =
      ({ c5BadConfig with separationRadius := some 0.01 } :
        SimConfigF).sanitize ∧
    ({ defaultFlock2ConfigF with maxSpeed := some 10 } :
        Flock2ConfigF).sanitize.sanitize =
      ({ defaultFlock2ConfigF with maxSpeed := some 10 } :
        Flock2ConfigF).sanitize :=
  ⟨rfl,
   c5_sanitize_idempotent_on_finite.1 _ rfl rfl,
   c5_sanitize_idempotent_on_finite.2 _ rfl⟩

/-! ### Claim C6 -/

/-- The depth-pinned state: every z-position at the mid-layer, every
z-velocity zero. -/
def zPinned (s : SimState) : Prop :=
  (∀ q ∈ s.posZ, q = ZLAYER) ∧ (∀ q ∈ s.velZ, q = 0)

theorem foldl_set_length {α : Type} (c : α) (n : ℕ) (l : List α) :
    ((List.range n).foldl (fun l' i => l'.set i c) l).length = l.length := by
  rw [foldl_proj (fun l' : List α => l'.length) _ (fun len _ => len) _ _
    (fun a b => List.length_set a b c)]
  exact List.foldl_fixed _

theorem foldl_set_get? {α : Type} (c : α) :
    ∀ (n : ℕ) (l : List α) (k : ℕ),
      ((List.range n).foldl (fun l' i => l'.set i c) l).get? k =
        if k < n ∧ k < l.length then some c else l.get? k := by
  intro n
  induction n with
  | zero =>
    intro l k
    simp
  | succ m ih =>
    intro l k
    rw [List.range_succ, List.foldl_append]
    simp only [List.foldl_cons, List.foldl_nil]
    by_cases hk : k = m
    · subst hk
      rw [List.get?_set_eq, ih l k, if_neg (fun h => lt_irrefl k h.1)]
      by_cases hlen : k < l.length
      · rw [if_pos ⟨Nat.lt_succ_self k, hlen⟩, List.get?_eq_get hlen]
        rfl
      · rw [if_neg (fun h => hlen h.2),
          List.get?_eq_none.mpr (le_of_not_lt hlen)]
        rfl
    · rw [List.get?_set_ne _ _ (fun h => hk h.symm), ih l k]
      by_cases h1 : k < m ∧ k < l.length
      · rw [if_pos h1, if_pos ⟨Nat.lt_succ_of_lt h1.1, h1.2⟩]
      · rw [if_neg h1, if_neg (fun h2 => h1 ⟨by omega, h2.2⟩)]

theorem foldl_set_all {α : Type} (c : α) (n : ℕ) (l : List α)
    (h : l.length ≤ n) :
    ∀ q ∈ (List.range n).foldl (fun l' i => l'.set i c) l, q = c := by
  intro q hq
  obtain ⟨k, hk⟩ := List.mem_iff_get?.mp hq
  rw [foldl_set_get? c n l k] at hk
  by_cases hcase : k < n ∧ k < l.length
  · rw [if_pos hcase] at hk
    exact (Option.some_inj.mp hk).symm
  · rw [if_neg hcase] at hk
    obtain ⟨hklen, -⟩ := List.get?_eq_some.mp hk
    exact absurd ⟨lt_of_lt_of_le hklen h, hklen⟩ hcase

/-- The combined depth invariant: depth mode off and z arrays pinned. -/
def zInvariant (s : SimState) : Prop := s.zModeEnabled = false ∧ zPinned s

theorem zInv_applyPair (hard : ℚ) (i j : ℕ) (s : SimState)
    (h : zInvariant s) : zInvariant (applyPairCorrection s hard i j) := by
  obtain ⟨h1, h2, h3⟩ := h
  unfold applyPairCorrection
  simp only [h1, Bool.false_eq_true, if_false]
  split_ifs <;> first
    | exact ⟨h1, h2, h3⟩
    | exact ⟨rfl, h2, h3⟩

theorem zInv_resolveHard (s : SimState) (h : zInvariant s) :
    zInvariant (resolveHard s) := by
  simp only [resolveHard]
  split_ifs with hguard
  · exact h
  · exact foldRange_preserves zInvariant _ _ _
      (fun a i ha => foldl_preserves zInvariant _ _ _
        (fun a2 j ha2 => zInv_applyPair _ i j a2 ha2) ha) h

theorem zInv_syncRender (s : SimState) (h : zInvariant s) :
    zInvariant (syncRender s) :=
  foldRange_preserves zInvariant _ _ _ (fun a i ha => ha) h

theorem zInv_classicFastPath (damp dt : ℚ) (s : SimState)
    (h : zInvariant s) : zInvariant (classicFastPath s damp dt) := by
  refine foldRange_preserves zInvariant _ _ _ ?_ h
  intro a i ha
  obtain ⟨h1, h2, h3⟩ := ha
  refine ⟨h1, ?_, ?_⟩
  · simp only [h1, Bool.false_eq_true, if_false]
    exact mem_set_all h2 rfl
  · simp only [h1, Bool.false_eq_true, if_false]
    exact mem_set_all h3 rfl

theorem zInv_classicIntegrateAgent (damp dt : ℚ) (i : ℕ) (s : SimState)
    (h : zInvariant s) : zInvariant (classicIntegrateAgent s damp dt i) := by
  obtain ⟨h1, h2, h3⟩ := h
  unfold classicIntegrateAgent
  refine ⟨h1, ?_, ?_⟩
  · simp only [h1, Bool.false_eq_true, if_false]
    exact mem_set_all h2 rfl
  · simp only [h1, Bool.false_eq_true, if_false]
    exact mem_set_all h3 rfl

theorem zInv_classicMainPath (damp dt : ℚ) (s : SimState)
    (h : zInvariant s) : zInvariant (classicMainPath s damp dt) := by
  unfold classicMainPath
  refine foldRange_preserves zInvariant _ _ _
    (fun a i ha => zInv_classicIntegrateAgent damp dt i a ha) ?_
  exact foldRange_preserves zInvariant _ _ _ (fun a i ha => ha) h

theorem zInv_stepClassic (dt : ℚ) (s : SimState) (h : zInvariant s) :
    zInvariant (stepClassic s dt) := by
  simp only [stepClassic]
  split_ifs
  · exact zInv_syncRender _ (zInv_resolveHard _
      (zInv_classicFastPath _ _ _ ⟨h.1, h.2⟩))
  · exact zInv_syncRender _ (zInv_resolveHard _
      (zInv_classicFastPath _ _ _ ⟨h.1, h.2⟩))
  · exact zInv_syncRender _ (zInv_resolveHard _
      (zInv_classicMainPath _ _ _ ⟨h.1, h.2⟩))
  · exact zInv_syncRender _ (zInv_resolveHard _
      (zInv_classicMainPath _ _ _ ⟨h.1, h.2⟩))

theorem zInv_flock2IntegrateAgent (dt : ℚ) (wf : Bool) (i : ℕ)
    (s : SimState) (h : zInvariant s) :
    zInvariant (flock2IntegrateAgent s dt wf i) := by
  obtain ⟨h1, h2, h3⟩ := h
  unfold flock2IntegrateAgent
  refine ⟨h1, ?_, ?_⟩
  · simp only [h1, Bool.false_eq_true, if_false]
    exact mem_set_all h2 rfl
  · simp only [h1, Bool.false_eq_true, if_false]
    exact mem_set_all h3 rfl

theorem zInv_flock2MainPhase (dt : ℚ) (wf : Bool) (s : SimState)
    (h : zInvariant s) : zInvariant (flock2MainPhase s dt wf) := by
  unfold flock2MainPhase
  refine foldRange_preserves zInvariant _ _ _
    (fun a i ha => zInv_flock2IntegrateAgent dt wf i _ ha) ?_
  exact foldRange_preserves zInvariant _ _ _ (fun a i ha => ha) ⟨h.1, h.2⟩

theorem zInv_stepFlock2 (dt : ℚ) (wf : Bool) (s : SimState)
    (h : zInvariant s) : zInvariant (stepFlock2 s dt wf) :=
  zInv_syncRender _ (zInv_flock2MainPhase dt wf s h)

theorem zInv_liteIntegrateAgent (dt : ℚ) (wf : Bool) (i : ℕ) (s : SimState)
    (h : zInvariant s) : zInvariant (liteIntegrateAgent s dt wf i) := by
  obtain ⟨h1, h2, h3⟩ := h
  unfold liteIntegrateAgent
  refine ⟨h1, ?_, ?_⟩
  · simp only [h1, Bool.false_eq_true, if_false]
    exact mem_set_all h2 rfl
  · simp only [h1, Bool.false_eq_true, if_false]
    exact mem_set_all h3 rfl

theorem zInv_liteMainPhase (dt : ℚ) (wf : Bool) (s : SimState)
    (h : zInvariant s) : zInvariant (liteMainPhase s dt wf) := by
  unfold liteMainPhase
  refine foldRange_preserves zInvariant _ _ _
    (fun a i ha => zInv_liteIntegrateAgent dt wf i _ ha) ?_
  exact foldRange_preserves zInvariant _ _ _ (fun a i ha => ha) ⟨h.1, h.2⟩

theorem zInv_stepFlock2Lite (dt : ℚ) (wf : Bool) (s : SimState)
    (h : zInvariant s) : zInvariant (stepFlock2Lite s dt wf) :=
  zInv_syncRender _ (zInv_liteMainPhase dt wf s h)

theorem zInv_reseed (s : SimState) (h : zInvariant s) :
    zInvariant (reseedVelocityForModel s) := by
  obtain ⟨h1, h2, h3⟩ := h
  cases hm : s.modelKind <;>
    · simp only [reseedVelocityForModel, hm]
      refine foldRange_preserves zInvariant _ _ _ ?_ ⟨h1, h2, h3⟩
      intro a i ha
      obtain ⟨ha1, ha2, ha3⟩ := ha
      refine ⟨ha1, ha2, ?_⟩
      simp only [ha1, Bool.false_eq_true, if_false]
      exact mem_set_all ha3 rfl

theorem zInv_setZMode_false (s : SimState) (hp : s.posZ.length ≤ s.count)
    (hv : s.velZ.length ≤ s.count) : zInvariant (setZMode s false) := by
  have hz : (setZMode s false).zModeEnabled = false := by
    show (foldRange s.count _ { s with zModeEnabled := false }).zModeEnabled
      = false
    exact foldRange_preserves (fun st : SimState => st.zModeEnabled = false)
      _ _ _ (fun a i ha => ha) rfl
  have hpz : (setZMode s false).posZ =
      (List.range s.count).foldl (fun l i => l.set i ZLAYER) s.posZ := by
    show (foldRange s.count _ { s with zModeEnabled := false }).posZ = _
    unfold foldRange
    exact foldl_proj (fun st : SimState => st.posZ) _ _ _ _ (fun a b => rfl)
  have hvz : (setZMode s false).velZ =
      (List.range s.count).foldl (fun l i => l.set i 0) s.velZ := by
    show (foldRange s.count _ { s with zModeEnabled := false }).velZ = _
    unfold foldRange
    exact foldl_proj (fun st : SimState => st.velZ) _ _ _ _ (fun a b => rfl)
  refine ⟨hz, ?_, ?_⟩
  · rw [hpz]
    exact foldl_set_all ZLAYER s.count s.posZ hp
  · rw [hvz]
    exact foldl_set_all 0 s.count s.velZ hv

/-- A sequence of model steps (helper for the iterated form of the depth
invariant: each entry picks the model path and the dt for that step). -/
def runSteps (s : SimState) : List (ModelKind × ℚ) → SimState
  | [] => s
  | (k, dt) :: rest =>
    runSteps
      (match k with
        | .classic => stepClassic s dt
        | .flock2Social => stepFlock2 s dt false
        | .flock2SocialFlight => stepFlock2 s dt true
        | .flock2LiteSocial => stepFlock2Lite s dt false
        | .flock2LiteSocialFlight => stepFlock2Lite s dt true) rest

theorem zInv_runSteps (steps : List (ModelKind × ℚ)) :
    ∀ s : SimState, zInvariant s → zInvariant (runSteps s steps) := by
  induction steps with
  | nil => intro s h; exact h
  | cons p rest ih =>
    intro s h
    obtain ⟨k, dt⟩ := p
    cases k with
    | classic => exact ih _ (zInv_stepClassic dt s h)
    | flock2Social => exact ih _ (zInv_stepFlock2 dt false s h)
    | flock2SocialFlight => exact ih _ (zInv_stepFlock2 dt true s h)
    | flock2LiteSocial => exact ih _ (zInv_stepFlock2Lite dt false s h)
    | flock2LiteSocialFlight => exact ih _ (zInv_stepFlock2Lite dt true s h)

/-- Claim C6 (amended): once `set_z_mode(false)` has pinned the depth axis,
every agent (all indices, active or not) has `pos_z = 0.5` and `vel_z = 0`,
and this persists across any sequence of steps of any model kind and across
model-switch reseeds.  (Immediately after construction the claim fails:
`pos_z` holds the raw random draws — see the counterexample.) -/
theorem c6_z_pinned_invariant :
    (∀ s : SimState, s.posZ.length ≤ s.count → s.velZ.length ≤ s.count →
      (setZMode s false).zModeEnabled = false ∧ zPinned (setZMode s false)) ∧
    (∀ (s : SimState) (dt : ℚ), s.zModeEnabled = false → zPinned s →
      (stepClassic s dt).zModeEnabled = false ∧ zPinned (stepClassic s dt)) ∧
    (∀ (s : SimState) (dt : ℚ) (wf : Bool), s.zModeEnabled = false →
      zPinned s → (stepFlock2 s dt wf).zModeEnabled = false ∧
      zPinned (stepFlock2 s dt wf)) ∧
    (∀ (s : SimState) (dt : ℚ) (wf : Bool), s.zModeEnabled = false →
      zPinned s → (stepFlock2Lite s dt wf).zModeEnabled = false ∧
      zPinned (stepFlock2Lite s dt wf)) ∧
    (∀ s : SimState, s.zModeEnabled = false → zPinned s →
      (reseedVelocityForModel s).zModeEnabled = false ∧
      zPinned (reseedVelocityForModel s)) ∧
    (∀ (s : SimState) (steps : List (ModelKind × ℚ)),
      s.zModeEnabled = false → zPinned s →
      (runSteps s steps).zModeEnabled = false ∧ zPinned (runSteps s steps)) := by
  refine ⟨?_, ?_, ?_, ?_, ?_, ?_⟩
  · intro s hp hv
    exact zInv_setZMode_false s hp hv
  · intro s dt h1 h2
    exact zInv_stepClassic dt s ⟨h1, h2⟩
  · intro s dt wf h1 h2
    exact zInv_stepFlock2 dt wf s ⟨h1, h2⟩
  · intro s dt wf h1 h2
    exact zInv_stepFlock2Lite dt wf s ⟨h1, h2⟩
  · intro s h1 h2
    exact zInv_reseed s ⟨h1, h2⟩
  · intro s steps h1 h2
    exact zInv_runSteps steps s ⟨h1, h2⟩

/-- Claim C6's counterexample: immediately after construction (depth mode
already disabled) the first agent's `pos_z` is its raw random draw, not the
mid-layer 0.5 — `Sim::new` only pins `render_z`. -/
theorem c6_construction_z_not_pinned :
    (simNew 1 1 1 1).zModeEnabled = false ∧
    (simNew 1 1 1 1).renderZ.getD 0 0 = ZLAYER ∧
    (simNew 1 1 1 1).posZ.getD 0 0 ≠ ZLAYER := by
  refine ⟨rfl, rfl, ?_⟩
  with_unfolding_all decide

/-- Witness for C6's amended theorem: a freshly constructed 2-agent sim,
pinned via `set_z_mode(false)`, stays pinned across a classic step, a
flock2 step and a reseed. -/
theorem c6_z_pinned_invariant_witness :
    zPinned (setZMode (simNew 2 5 1 1) false) ∧
    zPinned (runSteps (setZMode (simNew 2 5 1 1) false)
      [(.classic, 1/100), (.flock2Social, 1/100)]) ∧
    zPinned (reseedVelocityForModel (setZMode (simNew 2 5 1 1) false)) := by
  have h1 := c6_z_pinned_invariant.1 (simNew 2 5 1 1)
    (by with_unfolding_all decide) (by with_unfolding_all decide)
  have hz : (setZMode (simNew 2 5 1 1) false).zModeEnabled = false := h1.1
  refine ⟨h1.2, ?_, ?_⟩
  · exact (c6_z_pinned_invariant.2.2.2.2.2 _ _ hz h1.2).2
  · exact (c6_z_pinned_invariant.2.2.2.2.1 _ hz h1.2).2

theorem getD_set_other {α : Type} {l : List α} {i j : ℕ} (v d : α)
    (h : i ≠ j) : (l.set i v).getD j d = l.getD j d := by
  rw [List.getD_eq_get?, List.get?_set_ne _ _ h, List.getD_eq_get?]

theorem getD_set_set_fst {α : Type} {l : List α} {i j : ℕ} (v1 v2 d : α)
    (h : i ≠ j) (hi : i < l.length) :
    ((l.set i v1).set j v2).getD i d = v1 := by
  rw [List.getD_eq_get?, List.get?_set_ne _ _ h.symm, List.get?_set_eq,
    List.get?_eq_get hi]
  rfl

theorem getD_set_set_snd {α : Type} {l : List α} {i j : ℕ} (v1 v2 d : α)
    (h : i ≠ j) (hj : j < l.length) :
    ((l.set i v1).set j v2).getD j d = v2 := by
  rw [List.getD_eq_get?, List.get?_set_eq, List.get?_set_ne _ _ h,
    List.get?_eq_get hj]
  rfl

/-! ### Claim C3 -/

/-- The (wrapped) separation vector the resolver computes for a pair
(statement helper; definitionally the `dx`/`dy`/`dz` of
`applyPairCorrection`). -/
def pairDelta (s : SimState) (i j : ℕ) : ℚ × ℚ × ℚ :=
  (axisDelta (s.posX.getD j 0 - s.posX.getD i 0) !s.bounceX,
   axisDelta (s.posY.getD j 0 - s.posY.getD i 0) !s.bounceY,
   if s.zModeEnabled then
     axisDelta (s.posZ.getD j 0 - s.posZ.getD i 0) !s.bounceZ
   else 0)

/-- The squared pair distance the resolver tests (statement helper). -/
def pairDistSq (s : SimState) (i j : ℕ) : ℚ :=
  distanceSq3d (pairDelta s i j).1 (pairDelta s i j).2.1 (pairDelta s i j).2.2

/-- Claim C3: the hard-constraint resolver modifies positions only when
`hard_min_distance > 0` and at least two agents are active (and it never
touches velocities); and for a correcting pair `(i, j > i)` at true
distance `r < hard_min_distance` (non-degenerate, with `r` the exact
rational square root of the squared distance and the resolver entered with
a positive `hard`), both agents' positions receive the push magnitude
`min((hard − r)·0.5·0.05, 0.0025)` in opposite directions along the unit
separation direction `(dx/r, dy/r, dz/r)` (unit: its squared norm is 1),
each coordinate re-projected by the boundary policy; with depth mode off,
z-positions stay untouched.  For a (near-)coincident correcting pair
(`dist_sq ≤ EPSILON`, `lib.rs` lines 653-676) the code takes `dist = 0`,
so the push magnitude is `min(hard·0.5·0.05, 0.0025)`, applied in opposite
directions along the hash-derived direction, which is deterministic: a
total function of the step index, the pair indices and the depth-mode
flag alone, independent of the agents' positions and of the deltas (part
4's inner ∀); it is never division-by-zero-degenerate, falling back to
`(1, 0, 0)` when the hash vector is too short. -/
theorem c3_hard_constraint_resolver :
    (∀ s : SimState, resolveHard s ≠ s →
      0 < s.config.hardMinDistance ∧ 2 ≤ s.activeCount) ∧
    (∀ s : SimState, (resolveHard s).velX = s.velX ∧
      (resolveHard s).velY = s.velY ∧ (resolveHard s).velZ = s.velZ) ∧
    (∀ (s : SimState) (hard r : ℚ) (i j : ℕ),
      0 < hard → 0 ≤ r → r * r = pairDistSq s i j →
      EPS < pairDistSq s i j → pairDistSq s i j < hard * hard →
      i < j → j < s.posX.length → j < s.posY.length →
      (0 < min ((hard - r) * 0.5 * 0.05) 0.0025) ∧
      ((pairDelta s i j).1 / r) * ((pairDelta s i j).1 / r) +
        ((pairDelta s i j).2.1 / r) * ((pairDelta s i j).2.1 / r) +
        ((pairDelta s i j).2.2 / r) * ((pairDelta s i j).2.2 / r) = 1 ∧
      (applyPairCorrection s hard i j).posX.getD i 0 =
        projectAxisPosition
          (s.posX.getD i 0 -
            (pairDelta s i j).1 / r * min ((hard - r) * 0.5 * 0.05) 0.0025)
          s.bounceX ∧
      (applyPairCorrection s hard i j).posX.getD j 0 =
        projectAxisPosition
          (s.posX.getD j 0 +
            (pairDelta s i j).1 / r * min ((hard - r) * 0.5 * 0.05) 0.0025)
          s.bounceX ∧
      (applyPairCorrection s hard i j).posY.getD i 0 =
        projectAxisPosition
          (s.posY.getD i 0 -
            (pairDelta s i j).2.1 / r * min ((hard - r) * 0.5 * 0.05) 0.0025)
          s.bounceY ∧
      (applyPairCorrection s hard i j).posY.getD j 0 =
        projectAxisPosition
          (s.posY.getD j 0 +
            (pairDelta s i j).2.1 / r * min ((hard - r) * 0.5 * 0.05) 0.0025)
          s.bounceY ∧
      (s.zModeEnabled = false →
        (applyPairCorrection s hard i j).posZ = s.posZ) ∧
      (applyPairCorrection s hard i j).velX = s.velX ∧
      (applyPairCorrection s hard i j).velY = s.velY ∧
      (applyPairCorrection s hard i j).velZ = s.velZ) ∧
    (∀ (s : SimState) (hard : ℚ) (i j : ℕ),
      0 < hard → pairDistSq s i j ≤ EPS → pairDistSq s i j < hard * hard →
      i < j → j < s.posX.length → j < s.posY.length →
      (0 < min (hard * 0.5 * 0.05) 0.0025) ∧
      (pairPushDir s i j (pairDelta s i j).1 (pairDelta s i j).2.1
        (pairDelta s i j).2.2 (pairDistSq s i j)).dist = 0 ∧
      (∀ (t : SimState) (dx dy dz q : ℚ), t.stepIndex = s.stepIndex →
        t.zModeEnabled = s.zModeEnabled → q ≤ EPS →
        pairPushDir t i j dx dy dz q =
          pairPushDir s i j (pairDelta s i j).1 (pairDelta s i j).2.1
            (pairDelta s i j).2.2 (pairDistSq s i j)) ∧
      (applyPairCorrection s hard i j).posX.getD i 0 =
        projectAxisPosition
          (s.posX.getD i 0 -
            (pairPushDir s i j (pairDelta s i j).1 (pairDelta s i j).2.1
              (pairDelta s i j).2.2 (pairDistSq s i j)).nx *
              min (hard * 0.5 * 0.05) 0.0025) s.bounceX ∧
      (applyPairCorrection s hard i j).posX.getD j 0 =
        projectAxisPosition
          (s.posX.getD j 0 +
            (pairPushDir s i j (pairDelta s i j).1 (pairDelta s i j).2.1
              (pairDelta s i j).2.2 (pairDistSq s i j)).nx *
              min (hard * 0.5 * 0.05) 0.0025) s.bounceX ∧
      (applyPairCorrection s hard i j).posY.getD i 0 =
        projectAxisPosition
          (s.posY.getD i 0 -
            (pairPushDir s i j (pairDelta s i j).1 (pairDelta s i j).2.1
              (pairDelta s i j).2.2 (pairDistSq s i j)).ny *
              min (hard * 0.5 * 0.05) 0.0025) s.bounceY ∧
      (applyPairCorrection s hard i j).posY.getD j 0 =
        projectAxisPosition
          (s.posY.getD j 0 +
            (pairPushDir s i j (pairDelta s i j).1 (pairDelta s i j).2.1
              (pairDelta s i j).2.2 (pairDistSq s i j)).ny *
              min (hard * 0.5 * 0.05) 0.0025) s.bounceY ∧
      (s.zModeEnabled = false →
        (applyPairCorrection s hard i j).posZ = s.posZ) ∧
      (applyPairCorrection s hard i j).velX = s.velX ∧
      (applyPairCorrection s hard i j).velY = s.velY ∧
      (applyPairCorrection s hard i j).velZ = s.velZ) := by
  refine ⟨?_, ?_, ?_, ?_⟩
  · intro s hne
    by_contra hcon
    apply hne
    simp only [resolveHard]
    rw [if_pos ?_]
    rcases not_and_or.mp hcon with hc | hc
    · exact Or.inl (le_trans (le_of_not_lt hc) (by norm_num [EPS]))
    · exact Or.inr (by omega)
  · intro s
    simp only [resolveHard]
    split_ifs with hguard
    · exact ⟨rfl, rfl, rfl⟩
    · refine ⟨?_, ?_, ?_⟩ <;>
      · apply foldl_proj_const
        intro a b
        apply foldl_proj_const
        intro a2 b2
        simp only [applyPairCorrection]
        split_ifs <;> rfl
  · intro s hard r i j hhard hr hsq hgt hlt hij hjx hjy
    have hrpos : 0 < r := by
      rcases lt_or_eq_of_le hr with h | h
      · exact h
      · exfalso
        rw [← h, mul_zero] at hsq
        have : (0 : ℚ) < EPS := by norm_num [EPS]
        linarith [hsq ▸ hgt]
    have hrne : r ≠ 0 := ne_of_gt hrpos
    have hrh : r < hard := by
      nlinarith [hsq ▸ hlt]
    have hpush : 0 < min ((hard - r) * 0.5 * 0.05) 0.0025 := by
      apply lt_min
      · nlinarith
      · norm_num
    have hnorm : ((pairDelta s i j).1 / r) * ((pairDelta s i j).1 / r) +
        ((pairDelta s i j).2.1 / r) * ((pairDelta s i j).2.1 / r) +
        ((pairDelta s i j).2.2 / r) * ((pairDelta s i j).2.2 / r) = 1 := by
      have hd : (pairDelta s i j).1 * (pairDelta s i j).1 +
          (pairDelta s i j).2.1 * (pairDelta s i j).2.1 +
          (pairDelta s i j).2.2 * (pairDelta s i j).2.2 = r * r := by
        rw [hsq]
        rfl
      field_simp
      linarith [hd]
    have happ : applyPairCorrection s hard i j =
        (let push := min ((hard - r) * 0.5 * 0.05) 0.0025
        let s2 := { s with
          posX := s.posX.set i (projectAxisPosition
            (s.posX.getD i 0 - (pairDelta s i j).1 / r * push) s.bounceX),
          posY := s.posY.set i (projectAxisPosition
            (s.posY.getD i 0 - (pairDelta s i j).2.1 / r * push) s.bounceY) }
        let s3 := { s2 with
          posX := s2.posX.set j (projectAxisPosition
            (s2.posX.getD j 0 + (pairDelta s i j).1 / r * push) s.bounceX),
          posY := s2.posY.set j (projectAxisPosition
            (s2.posY.getD j 0 + (pairDelta s i j).2.1 / r * push) s.bounceY) }
        if s.zModeEnabled then
          { s3 with posZ := ((s3.posZ.set i (projectAxisPosition
              (s3.posZ.getD i 0 - (if s.zModeEnabled then
                (pairDelta s i j).2.2 / r else 0) * push) s.bounceZ)).set
            j (projectAxisPosition
              (s3.posZ.getD j 0 + (if s.zModeEnabled then
                (pairDelta s i j).2.2 / r else 0) * push) s.bounceZ)) }
        else s3) := by
      have hpd : pairPushDir s i j (pairDelta s i j).1 (pairDelta s i j).2.1
          (pairDelta s i j).2.2 (pairDistSq s i j) =
          { nx := (pairDelta s i j).1 / r, ny := (pairDelta s i j).2.1 / r,
            nz := if s.zModeEnabled then (pairDelta s i j).2.2 / r else 0,
            dist := r } := by
        simp only [pairPushDir, if_pos hgt]
        rw [← hsq, ratSqrt_mul_self hr]
      simp only [pairDistSq, pairDelta] at hlt hgt hsq hpd
      simp only [applyPairCorrection]
      rw [if_neg (not_le.mpr hlt), hpd]
      dsimp only
      rw [if_neg (not_le.mpr hpush)]
      simp only [pairDelta]
    have hjne : i ≠ j := Nat.ne_of_lt hij
    refine ⟨hpush, hnorm, ?_, ?_, ?_, ?_, ?_, ?_, ?_, ?_⟩
    · rw [happ]
      dsimp only
      split_ifs with hz <;>
        rw [getD_set_set_fst _ _ _ hjne (lt_trans hij hjx)]
    · rw [happ]
      dsimp only
      split_ifs with hz <;>
        rw [getD_set_set_snd _ _ _ hjne hjx, getD_set_other _ _ hjne]
    · rw [happ]
      dsimp only
      split_ifs with hz <;>
        rw [getD_set_set_fst _ _ _ hjne (lt_trans hij hjy)]
    · rw [happ]
      dsimp only
      split_ifs with hz <;>
        rw [getD_set_set_snd _ _ _ hjne hjy, getD_set_other _ _ hjne]
    · intro hz
      rw [happ]
      dsimp only
      rw [if_neg (by rw [hz]; exact Bool.false_ne_true)]
    · rw [happ]
      dsimp only
      split_ifs <;> rfl
    · rw [happ]
      dsimp only
      split_ifs <;> rfl
    · rw [happ]
      dsimp only
      split_ifs <;> rfl
  · intro s hard i j hhard hle hlt hij hjx hjy
    have hpush : 0 < min (hard * 0.5 * 0.05) 0.0025 := by
      apply lt_min
      · nlinarith
      · norm_num
    have hdist0 : (pairPushDir s i j (pairDelta s i j).1 (pairDelta s i j).2.1
        (pairDelta s i j).2.2 (pairDistSq s i j)).dist = 0 := by
      simp only [pairPushDir]
      rw [if_neg (not_lt.mpr hle)]
      split_ifs <;> rfl
    have hdet : ∀ (t : SimState) (dx dy dz q : ℚ), t.stepIndex = s.stepIndex →
        t.zModeEnabled = s.zModeEnabled → q ≤ EPS →
        pairPushDir t i j dx dy dz q =
          pairPushDir s i j (pairDelta s i j).1 (pairDelta s i j).2.1
            (pairDelta s i j).2.2 (pairDistSq s i j) := by
      intro t dx dy dz q hstep hz hq
      simp only [pairPushDir]
      rw [if_neg (not_lt.mpr hq), if_neg (not_lt.mpr hle), hstep, hz]
    have happ : applyPairCorrection s hard i j =
        (let push := min (hard * 0.5 * 0.05) 0.0025
        let pd := pairPushDir s i j (pairDelta s i j).1 (pairDelta s i j).2.1
          (pairDelta s i j).2.2 (pairDistSq s i j)
        let s2 := { s with
          posX := s.posX.set i (projectAxisPosition
            (s.posX.getD i 0 - pd.nx * push) s.bounceX),
          posY := s.posY.set i (projectAxisPosition
            (s.posY.getD i 0 - pd.ny * push) s.bounceY) }
        let s3 := { s2 with
          posX := s2.posX.set j (projectAxisPosition
            (s2.posX.getD j 0 + pd.nx * push) s.bounceX),
          posY := s2.posY.set j (projectAxisPosition
            (s2.posY.getD j 0 + pd.ny * push) s.bounceY) }
        if s.zModeEnabled then
          { s3 with posZ := ((s3.posZ.set i (projectAxisPosition
              (s3.posZ.getD i 0 - pd.nz * push) s.bounceZ)).set
            j (projectAxisPosition
              (s3.posZ.getD j 0 + pd.nz * push) s.bounceZ)) }
        else s3) := by
      have hd0 := hdist0
      simp only [pairDistSq, pairDelta] at hlt hd0
      simp only [applyPairCorrection]
      rw [if_neg (not_le.mpr hlt), hd0, sub_zero]
      rw [if_neg (not_le.mpr hpush)]
      simp only [pairDistSq, pairDelta]
    have hjne : i ≠ j := Nat.ne_of_lt hij
    refine ⟨hpush, hdist0, hdet, ?_, ?_, ?_, ?_, ?_, ?_, ?_, ?_⟩
    · rw [happ]
      dsimp only
      split_ifs with hz <;>
        rw [getD_set_set_fst _ _ _ hjne (lt_trans hij hjx)]
    · rw [happ]
      dsimp only
      split_ifs with hz <;>
        rw [getD_set_set_snd _ _ _ hjne hjx, getD_set_other _ _ hjne]
    · rw [happ]
      dsimp only
      split_ifs with hz <;>
        rw [getD_set_set_fst _ _ _ hjne (lt_trans hij hjy)]
    · rw [happ]
      dsimp only
      split_ifs with hz <;>
        rw [getD_set_set_snd _ _ _ hjne hjy, getD_set_other _ _ hjne]
    · intro hz
      rw [happ]
      dsimp only
      rw [if_neg (by rw [hz]; exact Bool.false_ne_true)]
    · rw [happ]
      dsimp only
      split_ifs <;> rfl
    · rw [happ]
      dsimp only
      split_ifs <;> rfl
    · rw [happ]
      dsimp only
      split_ifs <;> rfl

/-- Witness for C3: the separated pair `(0, 1)` of `c3WitnessState` at
distance `0.5 < hard = 0.6` (part 3), and the coincident pair `(0, 1)` of
`c2State` (part 4, `dist_sq = 0`). -/
theorem c3_hard_constraint_resolver_witness :
    (0 < min (((0.6 : ℚ) - 0.5) * 0.5 * 0.05) 0.0025 ∧
    (applyPairCorrection c3WitnessState 0.6 0 1).posX.getD 0 0 =
      projectAxisPosition
        (c3WitnessState.posX.getD 0 0 -
          (pairDelta c3WitnessState 0 1).1 / 0.5 *
            min (((0.6 : ℚ) - 0.5) * 0.5 * 0.05) 0.0025)
        c3WitnessState.bounceX) ∧
    (0 < min ((0.6 : ℚ) * 0.5 * 0.05) 0.0025 ∧
    (pairPushDir c2State 0 1 (pairDelta c2State 0 1).1
      (pairDelta c2State 0 1).2.1 (pairDelta c2State 0 1).2.2
      (pairDistSq c2State 0 1)).dist = 0 ∧
    (applyPairCorrection c2State 0.6 0 1).posX.getD 0 0 =
      projectAxisPosition
        (c2State.posX.getD 0 0 -
          (pairPushDir c2State 0 1 (pairDelta c2State 0 1).1
            (pairDelta c2State 0 1).2.1 (pairDelta c2State 0 1).2.2
            (pairDistSq c2State 0 1)).nx *
            min ((0.6 : ℚ) * 0.5 * 0.05) 0.0025) c2State.bounceX) := by
  have h := c3_hard_constraint_resolver.2.2.1 c3WitnessState 0.6 0.5 0 1
    (by norm_num) (by norm_num) (by with_unfolding_all decide)
    (by with_unfolding_all decide) (by with_unfolding_all decide)
    (by norm_num) (by with_unfolding_all decide)
    (by with_unfolding_all decide)
  have h4 := c3_hard_constraint_resolver.2.2.2 c2State 0.6 0 1
    (by norm_num) (by with_unfolding_all decide)
    (by with_unfolding_all decide) (by norm_num)
    (by with_unfolding_all decide) (by with_unfolding_all decide)
  exact ⟨⟨h.1, h.2.2.1⟩, h4.1, h4.2.1, h4.2.2.2.1⟩

/-! ### Claim C7 -/

/-- A fold keeping `m ≤ n ≤ cap` invariant yields `m ≤ cap` at the end. -/
theorem foldl_conj_le {α β : Type} (m n : α → ℕ) (cap : ℕ) (f : α → β → α)
    (l : List β) (init : α)
    (h : ∀ a b, m a ≤ n a ∧ n a ≤ cap →
      m (f a b) ≤ n (f a b) ∧ n (f a b) ≤ cap)
    (h0 : m init ≤ n init ∧ n init ≤ cap) :
    m (l.foldl f init) ≤ cap := by
  have hP := foldl_preserves (fun a => m a ≤ n a ∧ n a ≤ cap) f l init h h0
  exact le_trans hP.1 hP.2

theorem boids_count_le_cap (grid : GridSnap) (s : SimState) (i : ℕ)
    (hk : 0 < s.config.maxNeighborsSampled) :
    (computeBoidsAcceleration grid s i).2.2.2 ≤
      s.config.maxNeighborsSampled := by
  simp only [computeBoidsAcceleration]
  refine foldl_conj_le (fun a : BoidsAcc => a.neighborCount)
    (fun a : BoidsAcc => a.neighborSamples) _ _ _ _ ?_ ⟨le_rfl, Nat.zero_le _⟩
  intro a j ha
  dsimp only at ha ⊢
  split_ifs <;> (try dsimp only) <;> omega

/-- The per-iteration counter bound for a fold whose body adds at most `k`
to the diagnostic counter and leaves the configuration alone. -/
theorem fold_counter_bound (body : SimState → ℕ → SimState) (c : SimCfg)
    (k : ℕ)
    (hbody : ∀ st i, st.config = c →
      (body st i).config = c ∧
      (body st i).neighborsVisitedLastStep ≤
        st.neighborsVisitedLastStep + k) :
    ∀ (n : ℕ) (s : SimState), s.config = c →
      ((List.range n).foldl body s).config = c ∧
      ((List.range n).foldl body s).neighborsVisitedLastStep ≤
        s.neighborsVisitedLastStep + k * n := by
  intro n
  induction n with
  | zero =>
    intro s hs
    exact ⟨hs, Nat.le_add_right _ _⟩
  | succ m ih =>
    intro s hs
    rw [List.range_succ, List.foldl_append, List.foldl_cons, List.foldl_nil]
    obtain ⟨hc, hb⟩ := ih s hs
    obtain ⟨hc2, hb2⟩ := hbody _ m hc
    refine ⟨hc2, ?_⟩
    rw [Nat.mul_succ]
    omega

theorem counter_applyPair (s : SimState) (hard : ℚ) (i j : ℕ) :
    (applyPairCorrection s hard i j).neighborsVisitedLastStep =
      s.neighborsVisitedLastStep := by
  simp only [applyPairCorrection]
  split_ifs <;> rfl

theorem counter_resolveHard (s : SimState) :
    (resolveHard s).neighborsVisitedLastStep =
      s.neighborsVisitedLastStep := by
  simp only [resolveHard, foldRange]
  split_ifs with h
  · rfl
  · refine foldl_proj_const
      (fun st : SimState => st.neighborsVisitedLastStep) _ _ _ ?_
    intro a b
    refine foldl_proj_const
      (fun st : SimState => st.neighborsVisitedLastStep) _ _ _ ?_
    intro a2 b2
    exact counter_applyPair a2 _ b b2

theorem counter_syncRender (s : SimState) :
    (syncRender s).neighborsVisitedLastStep = s.neighborsVisitedLastStep := by
  simp only [syncRender, foldRange]
  exact foldl_proj_const (fun st : SimState => st.neighborsVisitedLastStep)
    _ _ _ (fun a b => rfl)

/-- Claim C7: with `max_neighbors_sampled = k > 0`, a classic step's
diagnostic `neighbors_visited_last_step` counter is at most
`k × active_count`: the closure's sample-cap guard (which re-fires on every
invocation) keeps each agent's counted neighbors at or below `k`, and the
step sums one contribution per active agent. -/
theorem c7_neighbor_cap_bound (s : SimState) (dt : ℚ) (k : ℕ)
    (hk : 0 < k) (hcfg : s.config.maxNeighborsSampled = k) :
    (stepClassic s dt).neighborsVisitedLastStep ≤ k * s.activeCount := by
  have hint : ∀ (d : ℚ) (st : SimState) (l : List ℕ),
      (l.foldl (fun st2 i => classicIntegrateAgent st2 d dt i)
        st).neighborsVisitedLastStep = st.neighborsVisitedLastStep :=
    fun d st l => foldl_proj_const
      (fun a : SimState => a.neighborsVisitedLastStep) _ _ _ (fun a b => rfl)
  simp only [stepClassic]
  split_ifs <;> rw [counter_syncRender, counter_resolveHard]
  all_goals first
    | (simp only [classicFastPath, foldRange]
       exact le_trans (le_of_eq (foldl_proj_const
         (fun a : SimState => a.neighborsVisitedLastStep) _ _ _
         (fun a b => rfl))) (Nat.zero_le _))
    | (simp only [classicMainPath, foldRange]
       rw [hint]
       refine le_trans (fold_counter_bound _ s.config k ?_ _ _ ?_).2
         (Nat.le_of_eq (Nat.zero_add _))
       · intro st i hst
         refine ⟨hst, ?_⟩
         have hm : st.config.maxNeighborsSampled = k := by rw [hst, hcfg]
         have hb := boids_count_le_cap (rebuildGrid
           { s with
             stepIndex := u32 (s.stepIndex + 1)
             neighborsVisitedLastStep := 0 } s.config.neighborRadius) st i
           (by rw [hm]; exact hk)
         rw [hm] at hb
         exact Nat.add_le_add_left hb st.neighborsVisitedLastStep
       · rfl)

/-- Witness for C7 at a concrete two-agent state with cap `k = 4`. -/
theorem c7_neighbor_cap_bound_witness :
    0 < 4 ∧ c7WitnessState.config.maxNeighborsSampled = 4 ∧
    (stepClassic c7WitnessState (1/100)).neighborsVisitedLastStep ≤
      4 * c7WitnessState.activeCount :=
  ⟨by decide, by with_unfolding_all rfl,
   c7_neighbor_cap_bound c7WitnessState (1/100) 4 (by decide)
     (by with_unfolding_all rfl)⟩

/-! ### Claim C2 -/

/-- Claim C2 (corrected): the classic step does run the hard-constraint
resolver after position integration and before the render mirror, but both
flock2 paths (full and lite, with or without flight) go straight from
their integration phase to the render mirror — the resolver is never
invoked on those paths. -/
theorem c2_resolver_ordering :
    (∀ (s : SimState) (dt : ℚ),
      stepClassic s dt = syncRender (resolveHard (classicPrefix s dt))) ∧
    (∀ (s : SimState) (dt : ℚ) (withFlight : Bool),
      stepFlock2 s dt withFlight =
        syncRender (flock2MainPhase s dt withFlight)) ∧
    (∀ (s : SimState) (dt : ℚ) (withFlight : Bool),
      stepFlock2Lite s dt withFlight =
        syncRender (liteMainPhase s dt withFlight)) := by
  refine ⟨?_, fun s dt w => rfl, fun s dt w => rfl⟩
  intro s dt
  simp only [stepClassic, classicPrefix]
  split_ifs <;> rfl

/-- Counterexample to C2 as stated: at a concrete coincident two-agent
flock2 state with `hard_min_distance = 0.2`, the actual step leaves both
agents at the same x coordinate (the resolver never runs on the flock2
path), while the pipeline the claim describes — resolver between
integration and the render mirror — pushes agent 0 away from agent 1. -/
theorem c2_flock2_resolver_skipped :
    (stepFlock2 c2State (1/100) false).posX.getD 0 0 ≠
      (stepFlock2Claimed c2State (1/100) false).posX.getD 0 0 := by
  with_unfolding_all decide

end Flockround
